import Mathlib

/-!
Verification development for the receipt-agent workflow orchestrator
(`controller.py`, `db_utils.py`, `tools.py`).

Shallow embedding conventions:
* Python `str` values are Lean `String`s; filesystem paths are modelled
  structurally as segment lists (`List String`), with `os.path.join a b`
  becoming `a ++ [b]` and `os.path.basename` the last segment.  The
  constant directory names `pdfs`, `success_pdfs`, `error_pdfs`, `images`
  stand for the absolute folders derived from `DRIVE_PROJECT_FOLDER`.
* JSON values (results of `json.loads`) are modelled by the inductive
  `Json`.  The Python stdlib parser itself is external code, so it enters
  the model as an environment function `loads : String → Except String Json`
  (an `Except.error` is a raised `JSONDecodeError`); `json.dumps` output is
  only stored, never inspected, so serialized columns keep the `Json` value.
* The three AI capability tools and the file move are external
  collaborators: each run's observable outcome for them is a field of
  `Env` (`CapOutcome.ret s` = the tool returned the string `s`,
  `CapOutcome.exn e` = the call raised an exception whose text is `e`).
* Fallible Python code is `Except String _`; an `Except.error e` is an
  uncaught Python exception with message `e`.  Where the exact stdlib
  exception text is not observable by any claim (e.g. `IndexError` from
  `list(...)[0]`), a fixed descriptive message stands in for it.
-/

namespace ReceiptAgent

/-- JSON-like values as produced by `json.loads`.  Numbers are modelled as
integers (all scores and amounts the claims mention are integers).  Objects
are association lists; `json.loads` keeps the last duplicate key, which we
do not model (no claim involves duplicate keys). -/
inductive Json where
  | null : Json
  | str (s : String) : Json
  | num (n : Int) : Json
  | arr (elems : List Json) : Json
  | obj (fields : List (String × Json)) : Json

/-- Python truthiness for the `Json` fragment (`None`, `""`, `0`, `[]`,
`{}` are falsy). -/
def pyFalsy : Json → Bool
  | Json.null => true
  | Json.str s => s = ""
  | Json.num n => n = 0
  | Json.arr l => l.isEmpty
  | Json.obj l => l.isEmpty

/-- `dict.get k` on a parsed JSON object (association-list lookup). -/
def lookupJ (fields : List (String × Json)) (k : String) : Option Json :=
  List.lookup k fields

/-- Python `str.startswith`, computed on the character lists. -/
def pyStartsWith (s pre : String) : Bool :=
  pre.data.isPrefixOf s.data

/-- Byte-wise strict comparison used by SQLite's BINARY collation for
`ORDER BY generated_receipt_id DESC` (UTF-8 byte order coincides with code
point order). -/
def charsLt : List Char → List Char → Bool
  | [], [] => false
  | [], _ :: _ => true
  | _ :: _, [] => false
  | a :: as, b :: bs =>
    if a.toNat < b.toNat then true
    else if b.toNat < a.toNat then false
    else charsLt as bs

/-- SQLite text comparison on whole strings. -/
def strLtSq (a b : String) : Bool := charsLt a.data b.data

/-- `SELECT ... ORDER BY 1 DESC LIMIT 1` over a list of id strings:
the maximum in SQLite BINARY text order, `none` on an empty set. -/
def sqliteMaxText : List String → Option String
  | [] => none
  | s :: rest =>
    match sqliteMaxText rest with
    | none => some s
    | some t => if strLtSq t s then some s else some t

/-- Python `f"{n:03d}"` for a non-negative counter: decimal digits,
zero-padded on the left to at least three characters. -/
def pad3 (n : Nat) : String :=
  let s := toString n
  if s.length < 3 then String.mk (List.replicate (3 - s.length) '0' ++ s.data) else s

/-- Python `f"{n:02d}"` (used by `strftime("%y%m%d")`). -/
def pad2 (n : Nat) : String :=
  let s := toString n
  if s.length < 2 then String.mk (List.replicate (2 - s.length) '0' ++ s.data) else s

/-- Python `s.split("_")[-1]`: the substring after the last underscore
(`s` itself when it has no underscore). -/
def afterLastUnderscore (s : String) : String :=
  String.mk ((s.data.reverse.takeWhile (fun c => c ≠ '_')).reverse)

/-- Decimal value of a digit list (big-endian). -/
def digitsToNat (cs : List Char) : Nat :=
  cs.foldl (fun a c => a * 10 + (c.toNat - 48)) 0

/-- Python `int(s)` for the strings this code ever parses (the digit
runs it wrote itself): all-digit, non-empty.  `int`'s tolerance for
signs, surrounding whitespace and inner underscores is not modelled —
no id written by this code contains them. -/
def pyIntOfDigits (s : String) : Option Nat :=
  if s.data ≠ [] ∧ s.data.all (fun c => c.isDigit) then some (digitsToNat s.data) else none

/-- `generated_receipt_id LIKE '{date}_%'` where `date` is a 6-digit
date string: a literal match of the date, one arbitrary character (the
`_` wildcard), then an arbitrary tail (`%`). -/
def likeDateUnderscorePct (datePfx s : String) : Bool :=
  datePfx.data.isPrefixOf s.data && decide (datePfx.length + 1 ≤ s.length)

/-- `_next_receipt_id` from `db_utils.py`: scan the table's ids for the
date pattern, take the row that sorts last, parse the digits after its
last underscore with Python `int` (modelled for the digit-only strings
this code writes), add one (falling back to 1 on a parse failure, as the
`except ... pass` does), and format with `%03d`. -/
def nextReceiptId (ids : List String) (datePfx : String) : String :=
  let matching := ids.filter (likeDateUnderscorePct datePfx)
  let last := sqliteMaxText matching
  let nextCounter : Nat :=
    match last with
    | none => 1
    | some lastId =>
      match pyIntOfDigits (afterLastUnderscore lastId) with
      | some n => n + 1
      | none => 1
  datePfx ++ "_" ++ pad3 nextCounter


/-- Gregorian leap year rule used by `datetime`. -/
def isLeapYear (y : Nat) : Bool :=
  y % 4 = 0 && (y % 100 ≠ 0 || y % 400 = 0)

def daysInMonth (y m : Nat) : Nat :=
  if m = 2 then (if isLeapYear y then 29 else 28)
  else if m = 4 ∨ m = 6 ∨ m = 9 ∨ m = 11 then 30
  else 31

/-- `datetime.strptime(s, "%Y%m%d")` for the 8-digit form: four year
digits, two month digits, two day digits, with calendar validation.
(`strptime` additionally tolerates 1-digit months/days in shorter
strings; that leniency is not modelled and no claim depends on it.) -/
def parseYYYYMMDD (s : String) : Option (Nat × Nat × Nat) :=
  let cs := s.data
  if cs.length = 8 && cs.all (fun c => c.isDigit) then
    let y := digitsToNat (cs.take 4)
    let m := digitsToNat ((cs.drop 4).take 2)
    let d := digitsToNat (cs.drop 6)
    if 1 ≤ m && m ≤ 12 && 1 ≤ d && d ≤ daysInMonth y m then some (y, m, d) else none
  else none

/-- `strftime("%y%m%d")`. -/
def fmtYYMMDD (y m d : Nat) : String :=
  pad2 (y % 100) ++ pad2 m ++ pad2 d

/-- The `date_yymmdd` computation duplicated at the top of both insert
helpers: use the extracted `日付` field when it is a truthy string that
`strptime` accepts, otherwise fall back to `datetime.now()` (`today`).
A falsy value skips the parse (`if date_raw else`), a truthy non-string
makes `strptime` raise `TypeError`, and both exceptions are swallowed by
the `except` — every such case yields `today`. -/
def dateYYMMDDOf (extracted : List (String × Json)) (today : String) : String :=
  match lookupJ extracted "日付" with
  | some (Json.str s) =>
    if s = "" then today
    else
      match parseYYYYMMDD s with
      | some (y, m, d) => fmtYYMMDD y m d
      | none => today
  | some _ => today
  | none => today

/-- `(extracted.get("相手先") or {})`: missing or falsy vendor values give
an empty dict; a truthy non-object makes the subsequent `.get` raise
`AttributeError` inside the insert helper. -/
def getVendorObj (extracted : List (String × Json)) : Except String (List (String × Json)) :=
  match lookupJ extracted "相手先" with
  | none => Except.ok []
  | some v =>
    if pyFalsy v then Except.ok []
    else
      match v with
      | Json.obj fields => Except.ok fields
      | _ => Except.error "AttributeError: object has no attribute get"

/-- A row of `successful_receipts`.  Columns that the source fills with
`json.dumps(...)` keep the underlying `Json` value (the serialization is
never read back by the code under verification). -/
structure SuccessRow where
  generated_receipt_id : String
  original_pdf_filename : String
  date : Option Json
  amount : Option Json
  tax : Option Json
  tax_rate : Option Json
  vendor_name : Option Json
  vendor_address : Option Json
  vendor_phone : Option Json
  registration_number : Option Json
  description : Option Json
  category : Option Json
  original_extracted_data : Json
  feedback : Json
  evaluation_score : Json

/-- A row of `failed_receipts` (adds `error_message`; the `.get(k, '')`
defaults become `Json.str ""`). -/
structure FailedRow where
  generated_receipt_id : String
  original_pdf_filename : String
  error_message : String
  date : Json
  amount : Json
  tax : Json
  tax_rate : Json
  vendor_name : Json
  vendor_address : Json
  vendor_phone : Json
  registration_number : Json
  description : Json
  category : Json
  original_extracted_data : Json
  feedback : Json
  evaluation_score : Json

/-- The two tables of `receipts.db`, in insertion order. -/
structure DB where
  successful_receipts : List SuccessRow
  failed_receipts : List FailedRow

def DB.empty : DB := ⟨[], []⟩

/-- `receipt_exists` from `db_utils.py`: a success row with this
`original_pdf_filename` already exists. -/
def receipt_exists (db : DB) (pdf_name : String) : Bool :=
  db.successful_receipts.any (fun r => r.original_pdf_filename = pdf_name)

/-- `insert_success_receipt`.  `today` stands for `datetime.now()`.
An `Except.error` is the `AttributeError` raised while building the row
values (vendor field on a truthy non-dict `相手先`); in that case no row
is written. -/
def insert_success_receipt (today : String) (db : DB) (pdf_name : String)
    (extracted : List (String × Json)) (feedback : Json) (score : Json) :
    Except String (DB × String) :=
  let date_yymmdd := dateYYMMDDOf extracted today
  match getVendorObj extracted with
  | Except.error e => Except.error e
  | Except.ok vend =>
    let gen_id := nextReceiptId (db.successful_receipts.map (fun r => r.generated_receipt_id)) date_yymmdd
    let row : SuccessRow :=
      { generated_receipt_id := gen_id
        original_pdf_filename := pdf_name
        date := lookupJ extracted "日付"
        amount := lookupJ extracted "金額"
        tax := lookupJ extracted "消費税"
        tax_rate := lookupJ extracted "消費税率"
        vendor_name := lookupJ vend "名前"
        vendor_address := lookupJ vend "住所"
        vendor_phone := lookupJ vend "電話番号"
        registration_number := lookupJ extracted "登録番号"
        description := lookupJ extracted "摘要"
        category := lookupJ extracted "カテゴリ"
        original_extracted_data := Json.obj extracted
        feedback := feedback
        evaluation_score := score }
    Except.ok ({ db with successful_receipts := db.successful_receipts ++ [row] }, gen_id)

/-- `insert_failed_receipt`. -/
def insert_failed_receipt (today : String) (db : DB) (pdf_name : String)
    (error_msg : String) (extracted : List (String × Json)) (feedback : Json)
    (score : Json) : Except String (DB × String) :=
  let date_yymmdd := dateYYMMDDOf extracted today
  match getVendorObj extracted with
  | Except.error e => Except.error e
  | Except.ok vend =>
    let gen_id := nextReceiptId (db.failed_receipts.map (fun r => r.generated_receipt_id)) date_yymmdd
    let row : FailedRow :=
      { generated_receipt_id := gen_id
        original_pdf_filename := pdf_name
        error_message := error_msg
        date := (lookupJ extracted "日付").getD (Json.str "")
        amount := (lookupJ extracted "金額").getD (Json.str "")
        tax := (lookupJ extracted "消費税").getD (Json.str "")
        tax_rate := (lookupJ extracted "消費税率").getD (Json.str "")
        vendor_name := (lookupJ vend "名前").getD (Json.str "")
        vendor_address := (lookupJ vend "住所").getD (Json.str "")
        vendor_phone := (lookupJ vend "電話番号").getD (Json.str "")
        registration_number := (lookupJ extracted "登録番号").getD (Json.str "")
        description := (lookupJ extracted "摘要").getD (Json.str "")
        category := (lookupJ extracted "カテゴリ").getD (Json.str "")
        original_extracted_data := Json.obj extracted
        feedback := feedback
        evaluation_score := score }
    Except.ok ({ db with failed_receipts := db.failed_receipts ++ [row] }, gen_id)

/-! ## Filesystem and environment model (`controller.py`, `tools.py`) -/

/-- The observable filesystem: the set of existing files (as segment
paths) and whether the shared cropped-images folder currently exists
(it is created at startup by `os.makedirs` and recreated by the
extraction tool; `manage_processed_receipt_files` checks
`os.path.exists` before `shutil.rmtree`). -/
structure FS where
  files : List (List String)
  imagesDirExists : Bool

/-- Relocation of one file (`shutil.move` / `os.replace` with the
copy-fallbacks of `_robust_move` and `safe_replace`): the source path
ceases to exist, the destination is (over)written.  The retry/atomicity
mechanics are timing-level and not observable here. -/
def moveFile (fs : FS) (src dst : List String) : FS :=
  { fs with files := (fs.files.filter (fun p => ¬ (p = src ∨ p = dst))) ++ [dst] }

/-- `shutil.rmtree(cropped_images_folder)`: every file under the shared
`images` folder disappears, and the folder itself is gone. -/
def rmtreeImages (fs : FS) : FS :=
  { files := fs.files.filter (fun p => p.head? ≠ some "images")
    imagesDirExists := false }

/-- `os.path.basename` on a segment path. -/
def basenameOf (p : List String) : String := p.getLastD ""

/-- The string Python sees for a segment path (used where the source
passes a full path where a filename is expected). -/
def pathToString (p : List String) : String := String.intercalate "/" p

/-- Observable outcome of one external tool invocation: the returned
string, or a raised exception carrying text `e`. -/
inductive CapOutcome where
  | ret (s : String) : CapOutcome
  | exn (e : String) : CapOutcome

/-- Per-run environment: stdlib JSON parsing semantics, the outcome each
capability tool produces for this run, whether the finalize-stage file
move raises (`none` = the move succeeds), `datetime.now()` formatted as
`%y%m%d`, and the file-size samples seen by `stable_file`'s polls. -/
structure Env where
  loads : String → Except String Json
  extractImagesResult : CapOutcome
  extractDataResult : CapOutcome
  evaluateDataResult : CapOutcome
  manageMoveExn : Option String
  today : String
  sizes : Nat → Nat

/-- `manage_processed_receipt_files` from `tools.py`: move the PDF to the
success or error folder under `{new_file_name}.pdf`, then delete the
shared cropped-images folder if it exists; any exception (modelled: the
move raising after `_robust_move`'s retries) yields an `ERROR:` string
with the filesystem unchanged. -/
def manage_processed_receipt_files (env : Env) (original_pdf_path : List String)
    (fs : FS) (validation_success : Bool) (new_file_name : String) : String × FS :=
  match env.manageMoveExn with
  | some e => ("ERROR: " ++ e, fs)
  | none =>
    let dst_folder := if validation_success then "success_pdfs" else "error_pdfs"
    let dst_path := [dst_folder, new_file_name ++ ".pdf"]
    let fs1 := moveFile fs original_pdf_path dst_path
    let fs2 := if fs1.imagesDirExists then rmtreeImages fs1 else fs1
    ("SUCCESS: moved to " ++ pathToString dst_path, fs2)

/-! ## Pipeline state (`GraphState`) and stages -/

/-- The LangGraph state dict.  `image_paths` holds whatever JSON value
stage 1 extracted (`list(json.loads(result).values())[0]`); the
`NotRequired` keys are `Option`s. -/
structure GraphState where
  pdf_path : List String
  image_paths : Json
  extracted_json_str : Option String := none
  evaluated_data : Option String := none
  processed_status : Option String := none
  error_message : Option String := none

/-- A stage's return value: a patch of keys to merge into the state. -/
structure StatePatch where
  image_paths : Option Json := none
  extracted_json_str : Option String := none
  evaluated_data : Option String := none
  processed_status : Option String := none
  error_message : Option String := none

/-- Patch-key override (a key present in the patch replaces the state's
value; `image_paths`'s `Annotated[..., "append"]` tag is a bare string,
not a reducer, so LangGraph also overrides it). -/
def patchKey {α : Type} (pv : Option α) (sv : α) : α :=
  match pv with
  | some v => v
  | none => sv

def patchKeyOpt {α : Type} (pv sv : Option α) : Option α :=
  match pv with
  | some v => some v
  | none => sv

def applyPatch (s : GraphState) (p : StatePatch) : GraphState :=
  { pdf_path := s.pdf_path
    image_paths := patchKey p.image_paths s.image_paths
    extracted_json_str := patchKeyOpt p.extracted_json_str s.extracted_json_str
    evaluated_data := patchKeyOpt p.evaluated_data s.evaluated_data
    processed_status := patchKeyOpt p.processed_status s.processed_status
    error_message := patchKeyOpt p.error_message s.error_message }

def failPatch (msg : String) : StatePatch :=
  { processed_status := some "FAILED", error_message := some msg }

/-- `evaluation["evaluation_score"]`-style subscript on a parsed JSON
value; the `Except.error` carries the `KeyError`/`TypeError` text. -/
def getItem (j : Json) (k : String) : Except String Json :=
  match j with
  | Json.obj fields =>
    match lookupJ fields k with
    | some v => Except.ok v
    | none => Except.error ("KeyError: " ++ k)
  | _ => Except.error "TypeError: value is not subscriptable"

/-- Stage 1, `call_extract_images`.  The second component counts
invocations of the extraction tool (always 1: the call is the first
statement of the `try`).  On a non-object/empty-object parse the
`list(json.loads(result).values())[0]` line raises, which the stage's
`except` converts to a FAILED patch. -/
def call_extract_images (env : Env) (_state : GraphState) : StatePatch × Nat :=
  match env.extractImagesResult with
  | CapOutcome.exn e => (failPatch ("Extract images failed: " ++ e), 1)
  | CapOutcome.ret result =>
    if pyStartsWith result "ERROR:" then (failPatch result, 1)
    else
      match env.loads result with
      | Except.error e => (failPatch ("Extract images failed: " ++ e), 1)
      | Except.ok (Json.obj (f :: _)) =>
        ({ image_paths := some f.2, processed_status := some "SUCCESS" }, 1)
      | Except.ok (Json.obj []) =>
        (failPatch ("Extract images failed: " ++ "IndexError: list index out of range"), 1)
      | Except.ok _ =>
        (failPatch ("Extract images failed: " ++ "AttributeError: object has no attribute values"), 1)

/-- Stage 2, `call_extract_data`: short-circuit guard, then the vision
tool (`json.dumps` of the always-present `image_paths` cannot fail). -/
def call_extract_data (env : Env) (state : GraphState) : StatePatch × Nat :=
  if state.processed_status ≠ some "SUCCESS" then
    (failPatch "Extract data failed because of corrupted data", 0)
  else
    match env.extractDataResult with
    | CapOutcome.exn e => (failPatch ("Extract data failed: " ++ e), 1)
    | CapOutcome.ret result =>
      if pyStartsWith result "ERROR:" then (failPatch result, 1)
      else ({ extracted_json_str := some result, processed_status := some "SUCCESS" }, 1)

/-- Stage 3, `call_evaluate_data`: guard, then the evaluation tool.  The
`state["extracted_json_str"]` subscript is evaluated while building the
tool's arguments, so a missing key raises before the tool is invoked. -/
def call_evaluate_data (env : Env) (state : GraphState) : StatePatch × Nat :=
  if state.processed_status ≠ some "SUCCESS" then
    (failPatch "Evaluating data failed because of corrupted data", 0)
  else
    match state.extracted_json_str with
    | none => (failPatch ("LLM evaluation failed: " ++ "KeyError: extracted_json_str"), 0)
    | some _ =>
      match env.evaluateDataResult with
      | CapOutcome.exn e => (failPatch ("LLM evaluation failed: " ++ e), 1)
      | CapOutcome.ret result =>
        if pyStartsWith result "ERROR:" then (failPatch result, 1)
        else ({ evaluated_data := some result, processed_status := some "SUCCESS" }, 1)

/-- Result of the finalize stage: its patch, the database and filesystem
after its effects, and how many times `manage_processed_receipt_files`
was invoked. -/
structure FinalizeRes where
  patch : StatePatch
  db : DB
  fs : FS
  manageCalls : Nat

/-- Stage 4, `call_finalize`: guard; parse `evaluated_data`; read score
and feedback; apply the `score > 75` acceptance rule; insert the row;
move the file via `manage_processed_receipt_files`; treat an `ERROR:`
result as a terminal failure.  Every exception inside the `try` becomes
`File management failed: {e}`. -/
def call_finalize (env : Env) (state : GraphState) (db : DB) (fs : FS) : FinalizeRes :=
  if state.processed_status ≠ some "SUCCESS" then
    ⟨failPatch "Finalize failed because of corrupted data", db, fs, 0⟩
  else
    match state.evaluated_data with
    | none => ⟨failPatch ("File management failed: " ++ "KeyError: evaluated_data"), db, fs, 0⟩
    | some ed =>
      match env.loads ed with
      | Except.error e => ⟨failPatch ("File management failed: " ++ e), db, fs, 0⟩
      | Except.ok evaluation =>
        match getItem evaluation "evaluation_score" with
        | Except.error e => ⟨failPatch ("File management failed: " ++ e), db, fs, 0⟩
        | Except.ok score =>
          match getItem evaluation "feedback" with
          | Except.error e => ⟨failPatch ("File management failed: " ++ e), db, fs, 0⟩
          | Except.ok feedback =>
            let pdf_filename := basenameOf state.pdf_path
            match score with
            | Json.num n =>
              if n > 75 then
                match state.extracted_json_str with
                | none =>
                  ⟨failPatch ("File management failed: " ++ "KeyError: extracted_json_str"), db, fs, 0⟩
                | some ex =>
                  match env.loads ex with
                  | Except.error e => ⟨failPatch ("File management failed: " ++ e), db, fs, 0⟩
                  | Except.ok (Json.obj exf) =>
                    match insert_success_receipt env.today db pdf_filename exf feedback (Json.num n) with
                    | Except.error e => ⟨failPatch ("File management failed: " ++ e), db, fs, 0⟩
                    | Except.ok (db1, new_id) =>
                      let mr := manage_processed_receipt_files env state.pdf_path fs true new_id
                      if pyStartsWith mr.1 "ERROR:" then ⟨failPatch mr.1, db1, mr.2, 1⟩
                      else ⟨{ processed_status := some "SUCCESS" }, db1, mr.2, 1⟩
                  | Except.ok _ =>
                    ⟨failPatch ("File management failed: " ++ "AttributeError: object has no attribute get"), db, fs, 0⟩
              else
                match state.extracted_json_str with
                | none =>
                  ⟨failPatch ("File management failed: " ++ "KeyError: extracted_json_str"), db, fs, 0⟩
                | some ex =>
                  match env.loads ex with
                  | Except.error e => ⟨failPatch ("File management failed: " ++ e), db, fs, 0⟩
                  | Except.ok (Json.obj exf) =>
                    match insert_failed_receipt env.today db pdf_filename
                        "評価スコアが低いため、処理に失敗しました。" exf feedback (Json.num n) with
                    | Except.error e => ⟨failPatch ("File management failed: " ++ e), db, fs, 0⟩
                    | Except.ok (db1, new_id) =>
                      let mr := manage_processed_receipt_files env state.pdf_path fs false new_id
                      if pyStartsWith mr.1 "ERROR:" then ⟨failPatch mr.1, db1, mr.2, 1⟩
                      else ⟨{ processed_status := some "SUCCESS" }, db1, mr.2, 1⟩
                  | Except.ok _ =>
                    ⟨failPatch ("File management failed: " ++ "AttributeError: object has no attribute get"), db, fs, 0⟩
            | _ => ⟨failPatch ("File management failed: " ++ "TypeError: comparison not supported"), db, fs, 0⟩

/-! ## Full pipeline run and dispatch -/

structure CapCounts where
  extractImages : Nat
  extractData : Nat
  evaluateData : Nat
  manage : Nat

def CapCounts.zero : CapCounts := ⟨0, 0, 0, 0⟩

/-- One `app.stream(initial_state)` run: the four node patches applied
in the fixed edge order, with the accumulated final state,
finalize-stage effects, and capability invocation counts. -/
structure PipeResult where
  p1 : StatePatch
  p2 : StatePatch
  p3 : StatePatch
  p4 : StatePatch
  final : GraphState
  db : DB
  fs : FS
  counts : CapCounts

/-- The accumulated LangGraph state after the extract-images node. -/
def stateAfter1 (env : Env) (s0 : GraphState) : GraphState :=
  applyPatch s0 (call_extract_images env s0).1

/-- ... after the extract-data node. -/
def stateAfter2 (env : Env) (s0 : GraphState) : GraphState :=
  applyPatch (stateAfter1 env s0) (call_extract_data env (stateAfter1 env s0)).1

/-- ... after the evaluate-data node. -/
def stateAfter3 (env : Env) (s0 : GraphState) : GraphState :=
  applyPatch (stateAfter2 env s0) (call_evaluate_data env (stateAfter2 env s0)).1

def runPipeline (env : Env) (s0 : GraphState) (db : DB) (fs : FS) : PipeResult :=
  { p1 := (call_extract_images env s0).1
    p2 := (call_extract_data env (stateAfter1 env s0)).1
    p3 := (call_evaluate_data env (stateAfter2 env s0)).1
    p4 := (call_finalize env (stateAfter3 env s0) db fs).patch
    final := applyPatch (stateAfter3 env s0) (call_finalize env (stateAfter3 env s0) db fs).patch
    db := (call_finalize env (stateAfter3 env s0) db fs).db
    fs := (call_finalize env (stateAfter3 env s0) db fs).fs
    counts := { extractImages := (call_extract_images env s0).2
                extractData := (call_extract_data env (stateAfter1 env s0)).2
                evaluateData := (call_evaluate_data env (stateAfter2 env s0)).2
                manage := (call_finalize env (stateAfter3 env s0) db fs).manageCalls } }

/-- The `stable_file` polling loop: up to `checks` reads of the file
size, returning as soon as a read equals the immediately preceding one
(`last` starts at `-1`, so the first read never matches); when the loop
exhausts its `checks` iterations the function simply returns.  The
boolean records whether the early `size == last` return fired. -/
def stableFileAux (sizes : Nat → Nat) : Nat → Nat → Int → Bool
  | 0, _, _ => false
  | k + 1, i, last =>
    if (sizes i : Int) = last then true
    else stableFileAux sizes k (i + 1) (sizes i)

def stable_file (sizes : Nat → Nat) (checks : Nat := 3) : Bool :=
  stableFileAux sizes checks 0 (-1)

/-- Result of one `process_pdf` dispatch.  `stableSaw` records whether
`stable_file` returned through its size-match early exit (Python
discards this; the pipeline proceeds either way). -/
structure ProcessResult where
  db : DB
  fs : FS
  counts : CapCounts
  stableSaw : Bool

/-- The initial LangGraph state built by `process_pdf`. -/
def initState (path : List String) : GraphState :=
  { pdf_path := path, image_paths := Json.arr [] }

/-- `process_pdf` from `controller.py`: the duplicate check (note: it
passes the full `pdf_path` to `receipt_exists`, whose rows store
basenames), the stability wait, the LangGraph run, and the error-folder
fallback move keyed on the finalize patch's `processed_status`.  In the
duplicate branch the insert of the empty dict cannot raise; the
unreachable error arm leaves everything unchanged (Python would
propagate the exception before the move). -/
def process_pdf (env : Env) (pdf_path : List String) (db : DB) (fs : FS) : ProcessResult :=
  let pdf_filename := basenameOf pdf_path
  if receipt_exists db (pathToString pdf_path) then
    match insert_failed_receipt env.today db pdf_filename
        "同じ名前のファイルは既に処理されています" [] Json.null Json.null with
    | Except.ok (db1, _) =>
      ⟨db1, moveFile fs pdf_path ["error_pdfs", pdf_filename], CapCounts.zero, false⟩
    | Except.error _ => ⟨db, fs, CapCounts.zero, false⟩
  else
    let saw := stable_file env.sizes 3
    let r := runPipeline env (initState pdf_path) db fs
    if r.p4.processed_status = some "SUCCESS" then ⟨r.db, r.fs, r.counts, saw⟩
    else ⟨r.db, moveFile r.fs pdf_path ["error_pdfs", pdf_filename], r.counts, saw⟩

/-! ## Concrete instances used by counterexamples and witnesses -/

/-- A small concrete `json.loads` semantics covering the strings used in
concrete runs. -/
def loads0 : String → Except String Json := fun s =>
  if s = "EV76" then Except.ok (Json.obj [("evaluation_score", Json.num 76), ("feedback", Json.str "ok")])
  else if s = "EV75" then Except.ok (Json.obj [("evaluation_score", Json.num 75), ("feedback", Json.str "ok")])
  else if s = "EX" then Except.ok (Json.obj [("日付", Json.str "20241103")])
  else if s = "IMG" then Except.ok (Json.obj [("a.pdf", Json.arr [Json.str "images/a_page_1.png"])])
  else Except.error "Expecting value: line 1 column 1 (char 0)"

/-- A run whose extraction tool reports a failure (`ERROR:` string) and
whose file size keeps growing at every stability poll. -/
def envExtractError : Env :=
  { loads := loads0
    extractImagesResult := CapOutcome.ret "ERROR: boom"
    extractDataResult := CapOutcome.ret "X"
    evaluateDataResult := CapOutcome.ret "X"
    manageMoveExn := none
    today := "241103"
    sizes := fun i => i }

/-- A fully successful run (score 76). -/
def envAccept : Env :=
  { loads := loads0
    extractImagesResult := CapOutcome.ret "IMG"
    extractDataResult := CapOutcome.ret "EX"
    evaluateDataResult := CapOutcome.ret "EV76"
    manageMoveExn := none
    today := "241103"
    sizes := fun _ => 100 }

/-- The input directory holding just `pdfs/a.pdf`; the shared images
folder exists. -/
def fs0 : FS := ⟨[["pdfs", "a.pdf"]], true⟩

/-- A database whose `successful_receipts` already has a row for the
filename `a.pdf`. -/
def dbWithA : DB :=
  { successful_receipts :=
      [{ generated_receipt_id := "241103_001"
         original_pdf_filename := "a.pdf"
         date := none, amount := none, tax := none, tax_rate := none
         vendor_name := none, vendor_address := none, vendor_phone := none
         registration_number := none, description := none, category := none
         original_extracted_data := Json.obj []
         feedback := Json.null
         evaluation_score := Json.null }]
    failed_receipts := [] }

/-! ## C1 -/

/-- C1, counterexample: a run that fails at the extraction stage
(`ERROR:` result) completes with the PDF moved to the error directory
under its **original** name and **no** row written to either table —
refuting "a corresponding row exists in exactly one of the two tables,
keyed by the same generated ID embedded in the relocated file's name". -/
theorem c1_no_row_for_failed_run :
    (process_pdf envExtractError ["pdfs", "a.pdf"] DB.empty fs0).db.successful_receipts = [] ∧
    (process_pdf envExtractError ["pdfs", "a.pdf"] DB.empty fs0).db.failed_receipts = [] ∧
    ["error_pdfs", "a.pdf"] ∈ (process_pdf envExtractError ["pdfs", "a.pdf"] DB.empty fs0).fs.files ∧
    ["pdfs", "a.pdf"] ∉ (process_pdf envExtractError ["pdfs", "a.pdf"] DB.empty fs0).fs.files := by
  refine ⟨rfl, rfl, by decide, by decide⟩

/-! ## C3 -/

/-- C3: the duplicate check is made with the full `pdf_path` while the
table stores basenames, so for a watched file `pdfs/a.pdf` whose
basename `a.pdf` already has a success row, `receipt_exists` returns
false at dispatch time: the pipeline runs, the extraction capability is
invoked, and no duplicate-failure row is inserted — the file is moved to
the error directory only because the pipeline itself failed. -/
theorem c3_duplicate_check_never_fires :
    receipt_exists dbWithA (basenameOf ["pdfs", "a.pdf"]) = true ∧
    receipt_exists dbWithA (pathToString ["pdfs", "a.pdf"]) = false ∧
    (process_pdf envExtractError ["pdfs", "a.pdf"] dbWithA fs0).counts.extractImages = 1 ∧
    (process_pdf envExtractError ["pdfs", "a.pdf"] dbWithA fs0).db.failed_receipts = [] := by
  refine ⟨by decide, by decide, rfl, rfl⟩

/-! ## C4 -/

/-- C4, counterexample: after an extraction-stage failure, every later
stage's short-circuit branch writes its own `error_message`, so the
message is set four times and the terminal value is the Finalize
wrapper, not the message of the stage that actually failed. -/
theorem c4_error_message_overwritten :
    (runPipeline envExtractError { pdf_path := ["pdfs", "a.pdf"], image_paths := Json.arr [] }
        DB.empty fs0).p1.error_message = some "ERROR: boom" ∧
    (runPipeline envExtractError { pdf_path := ["pdfs", "a.pdf"], image_paths := Json.arr [] }
        DB.empty fs0).p2.error_message = some "Extract data failed because of corrupted data" ∧
    (runPipeline envExtractError { pdf_path := ["pdfs", "a.pdf"], image_paths := Json.arr [] }
        DB.empty fs0).p3.error_message = some "Evaluating data failed because of corrupted data" ∧
    (runPipeline envExtractError { pdf_path := ["pdfs", "a.pdf"], image_paths := Json.arr [] }
        DB.empty fs0).final.error_message = some "Finalize failed because of corrupted data" := by
  refine ⟨by decide, by decide, by decide, by decide⟩

/-! ## C6 -/

/-- C6, counterexample: with a file whose size changes at every poll
(`sizes i = i`), `stable_file` never observes an unchanged size, yet it
returns after its three reads and the dispatch still runs the pipeline
(the extraction capability is invoked). -/
theorem c6_unstable_file_still_dispatched :
    stable_file (fun i => i) 3 = false ∧
    (process_pdf envExtractError ["pdfs", "a.pdf"] DB.empty fs0).stableSaw = false ∧
    (process_pdf envExtractError ["pdfs", "a.pdf"] DB.empty fs0).counts.extractImages = 1 := by
  refine ⟨by decide, by decide, rfl⟩

/-! ## C7 -/

/-- C7, counterexample: once a date's counter has reached 1000 (the
1000th insert of a day produces the four-digit id `241103_1000`), the
`ORDER BY ... DESC` scan picks the lexicographically greatest matching
id, which is `241103_999`, not the numerically greatest, so the next
generated id repeats `241103_1000` — an id that already exists: the
per-prefix ids are not strictly increasing. -/
theorem c7_counter_1000_collides :
    nextReceiptId ["241103_999", "241103_1000"] "241103" = "241103_1000" ∧
    "241103_1000" ∈ ["241103_999", "241103_1000"] := by
  refine ⟨rfl, by decide⟩

/-! ## C9 -/

/-- Filesystem for the C9 counterexample: the shared `images` folder
holds a cropped page of the current run and one belonging to a different
run. -/
def fsTwoRuns : FS :=
  ⟨[["pdfs", "a.pdf"], ["images", "a_page_1.png"], ["images", "other_page_1.png"]], true⟩

/-- C9, counterexample: the finalize-stage file management deletes the
single **shared** cropped-images folder (there is no per-file
subdirectory), so a cropped image belonging to a different run is
deleted as well — refuting "directories belonging to other runs are left
unchanged". -/
theorem c9_shared_images_folder_deleted :
    pyStartsWith (manage_processed_receipt_files envAccept ["pdfs", "a.pdf"] fsTwoRuns true "241103_001").1
      "ERROR:" = false ∧
    ["success_pdfs", "241103_001.pdf"] ∈
      (manage_processed_receipt_files envAccept ["pdfs", "a.pdf"] fsTwoRuns true "241103_001").2.files ∧
    ["images", "other_page_1.png"] ∉
      (manage_processed_receipt_files envAccept ["pdfs", "a.pdf"] fsTwoRuns true "241103_001").2.files := by
  refine ⟨by decide, by decide, by decide⟩

/-! ## Helper lemmas about the stages -/

theorem extract_data_guard (env : Env) (s : GraphState)
    (h : s.processed_status ≠ some "SUCCESS") :
    call_extract_data env s = (failPatch "Extract data failed because of corrupted data", 0) := by
  unfold call_extract_data
  rw [if_pos h]

theorem evaluate_data_guard (env : Env) (s : GraphState)
    (h : s.processed_status ≠ some "SUCCESS") :
    call_evaluate_data env s = (failPatch "Evaluating data failed because of corrupted data", 0) := by
  unfold call_evaluate_data
  rw [if_pos h]

theorem finalize_guard (env : Env) (s : GraphState) (db : DB) (fs : FS)
    (h : s.processed_status ≠ some "SUCCESS") :
    call_finalize env s db fs = ⟨failPatch "Finalize failed because of corrupted data", db, fs, 0⟩ := by
  unfold call_finalize
  rw [if_pos h]

theorem extract_images_sets_status (env : Env) (s : GraphState) :
    ∃ v, (call_extract_images env s).1.processed_status = some v := by
  unfold call_extract_images
  repeat' split
  all_goals exact ⟨_, rfl⟩

theorem extract_data_sets_status (env : Env) (s : GraphState) :
    ∃ v, (call_extract_data env s).1.processed_status = some v := by
  unfold call_extract_data
  repeat' split
  all_goals exact ⟨_, rfl⟩

theorem evaluate_data_sets_status (env : Env) (s : GraphState) :
    ∃ v, (call_evaluate_data env s).1.processed_status = some v := by
  unfold call_evaluate_data
  repeat' split
  all_goals exact ⟨_, rfl⟩

theorem applyPatch_status_some (s : GraphState) (p : StatePatch) (v : String)
    (h : p.processed_status = some v) :
    (applyPatch s p).processed_status = some v := by
  simp [applyPatch, patchKeyOpt, h]

theorem extract_images_invoked (env : Env) (s : GraphState) :
    (call_extract_images env s).2 = 1 := by
  unfold call_extract_images
  repeat' split
  all_goals rfl

/-! ## C5: short-circuiting after the first failure -/

/-- C5: once a stage's patch is not SUCCESS, every later stage returns
its short-circuit FAILED patch without invoking its capability — the
downstream invocation counts are exactly zero and the database and
filesystem are untouched. -/
theorem c5_short_circuit (env : Env) (path : List String) (db : DB) (fs : FS) :
    ((runPipeline env (initState path) db fs).p1.processed_status ≠ some "SUCCESS" →
      (runPipeline env (initState path) db fs).p2 =
        failPatch "Extract data failed because of corrupted data" ∧
      (runPipeline env (initState path) db fs).p3 =
        failPatch "Evaluating data failed because of corrupted data" ∧
      (runPipeline env (initState path) db fs).p4 =
        failPatch "Finalize failed because of corrupted data" ∧
      (runPipeline env (initState path) db fs).counts.extractData = 0 ∧
      (runPipeline env (initState path) db fs).counts.evaluateData = 0 ∧
      (runPipeline env (initState path) db fs).counts.manage = 0 ∧
      (runPipeline env (initState path) db fs).db = db ∧
      (runPipeline env (initState path) db fs).fs = fs) ∧
    ((runPipeline env (initState path) db fs).p2.processed_status ≠ some "SUCCESS" →
      (runPipeline env (initState path) db fs).p3 =
        failPatch "Evaluating data failed because of corrupted data" ∧
      (runPipeline env (initState path) db fs).p4 =
        failPatch "Finalize failed because of corrupted data" ∧
      (runPipeline env (initState path) db fs).counts.evaluateData = 0 ∧
      (runPipeline env (initState path) db fs).counts.manage = 0 ∧
      (runPipeline env (initState path) db fs).db = db ∧
      (runPipeline env (initState path) db fs).fs = fs) ∧
    ((runPipeline env (initState path) db fs).p3.processed_status ≠ some "SUCCESS" →
      (runPipeline env (initState path) db fs).p4 =
        failPatch "Finalize failed because of corrupted data" ∧
      (runPipeline env (initState path) db fs).counts.manage = 0 ∧
      (runPipeline env (initState path) db fs).db = db ∧
      (runPipeline env (initState path) db fs).fs = fs) := by
  have fin3 : (stateAfter3 env (initState path)).processed_status ≠ some "SUCCESS" →
      (runPipeline env (initState path) db fs).p4 =
        failPatch "Finalize failed because of corrupted data" ∧
      (runPipeline env (initState path) db fs).counts.manage = 0 ∧
      (runPipeline env (initState path) db fs).db = db ∧
      (runPipeline env (initState path) db fs).fs = fs := by
    intro h3
    have hf := finalize_guard env (stateAfter3 env (initState path)) db fs h3
    refine ⟨?_, ?_, ?_, ?_⟩
    · show (call_finalize env (stateAfter3 env (initState path)) db fs).patch = _
      rw [hf]
    · show (call_finalize env (stateAfter3 env (initState path)) db fs).manageCalls = 0
      rw [hf]
    · show (call_finalize env (stateAfter3 env (initState path)) db fs).db = db
      rw [hf]
    · show (call_finalize env (stateAfter3 env (initState path)) db fs).fs = fs
      rw [hf]
  have fin2 : (stateAfter2 env (initState path)).processed_status ≠ some "SUCCESS" →
      (runPipeline env (initState path) db fs).p3 =
        failPatch "Evaluating data failed because of corrupted data" ∧
      (runPipeline env (initState path) db fs).p4 =
        failPatch "Finalize failed because of corrupted data" ∧
      (runPipeline env (initState path) db fs).counts.evaluateData = 0 ∧
      (runPipeline env (initState path) db fs).counts.manage = 0 ∧
      (runPipeline env (initState path) db fs).db = db ∧
      (runPipeline env (initState path) db fs).fs = fs := by
    intro h2
    have hg := evaluate_data_guard env (stateAfter2 env (initState path)) h2
    have h3 : (stateAfter3 env (initState path)).processed_status ≠ some "SUCCESS" := by
      have : (stateAfter3 env (initState path)).processed_status = some "FAILED" := by
        apply applyPatch_status_some
        rw [show (call_evaluate_data env (stateAfter2 env (initState path))).1 = _ from
          congrArg Prod.fst hg]
        rfl
      rw [this]
      simp
    rcases fin3 h3 with ⟨k1, k2, k3, k4⟩
    refine ⟨?_, k1, ?_, k2, k3, k4⟩
    · show (call_evaluate_data env (stateAfter2 env (initState path))).1 = _
      rw [hg]
    · show (call_evaluate_data env (stateAfter2 env (initState path))).2 = 0
      rw [hg]
  have fin1 : (stateAfter1 env (initState path)).processed_status ≠ some "SUCCESS" →
      (runPipeline env (initState path) db fs).p2 =
        failPatch "Extract data failed because of corrupted data" ∧
      (runPipeline env (initState path) db fs).counts.extractData = 0 ∧
      (stateAfter2 env (initState path)).processed_status ≠ some "SUCCESS" := by
    intro h1
    have hg := extract_data_guard env (stateAfter1 env (initState path)) h1
    refine ⟨?_, ?_, ?_⟩
    · show (call_extract_data env (stateAfter1 env (initState path))).1 = _
      rw [hg]
    · show (call_extract_data env (stateAfter1 env (initState path))).2 = 0
      rw [hg]
    · have : (stateAfter2 env (initState path)).processed_status = some "FAILED" := by
        apply applyPatch_status_some
        rw [show (call_extract_data env (stateAfter1 env (initState path))).1 = _ from
          congrArg Prod.fst hg]
        rfl
      rw [this]
      simp
  refine ⟨?_, ?_, ?_⟩
  · intro h
    have h1 : (stateAfter1 env (initState path)).processed_status ≠ some "SUCCESS" := by
      rcases extract_images_sets_status env (initState path) with ⟨v, hv⟩
      have hst : (stateAfter1 env (initState path)).processed_status = some v :=
        applyPatch_status_some _ _ v hv
      rw [hst, ← hv]
      exact h
    rcases fin1 h1 with ⟨k1, k2, h2⟩
    rcases fin2 h2 with ⟨k3, k4, k5, k6, k7, k8⟩
    exact ⟨k1, k3, k4, k2, k5, k6, k7, k8⟩
  · intro h
    have h2 : (stateAfter2 env (initState path)).processed_status ≠ some "SUCCESS" := by
      rcases extract_data_sets_status env (stateAfter1 env (initState path)) with ⟨v, hv⟩
      have hst : (stateAfter2 env (initState path)).processed_status = some v :=
        applyPatch_status_some _ _ v hv
      rw [hst, ← hv]
      exact h
    exact fin2 h2
  · intro h
    have h3 : (stateAfter3 env (initState path)).processed_status ≠ some "SUCCESS" := by
      rcases evaluate_data_sets_status env (stateAfter2 env (initState path)) with ⟨v, hv⟩
      have hst : (stateAfter3 env (initState path)).processed_status = some v :=
        applyPatch_status_some _ _ v hv
      rw [hst, ← hv]
      exact h
    exact fin3 h3

/-- C5 witness: in the concrete run whose extraction tool reports
`ERROR: boom`, the first stage's patch is not SUCCESS and all downstream
capability invocation counts are zero. -/
theorem c5_short_circuit_witness :
    (runPipeline envExtractError (initState ["pdfs", "a.pdf"]) DB.empty fs0).p1.processed_status ≠
      some "SUCCESS" ∧
    (runPipeline envExtractError (initState ["pdfs", "a.pdf"]) DB.empty fs0).counts.extractData = 0 ∧
    (runPipeline envExtractError (initState ["pdfs", "a.pdf"]) DB.empty fs0).counts.evaluateData = 0 ∧
    (runPipeline envExtractError (initState ["pdfs", "a.pdf"]) DB.empty fs0).counts.manage = 0 := by
  have H := (c5_short_circuit envExtractError ["pdfs", "a.pdf"] DB.empty fs0).1 (by decide)
  exact ⟨by decide, H.2.2.2.1, H.2.2.2.2.1, H.2.2.2.2.2.1⟩

/-- If any of the first three node patches is not SUCCESS, the state
reaching the finalize node is not SUCCESS either (failures propagate
through the short-circuit guards). -/
theorem stateAfter3_not_success (env : Env) (s0 : GraphState)
    (h : (call_extract_images env s0).1.processed_status ≠ some "SUCCESS" ∨
         (call_extract_data env (stateAfter1 env s0)).1.processed_status ≠ some "SUCCESS" ∨
         (call_evaluate_data env (stateAfter2 env s0)).1.processed_status ≠ some "SUCCESS") :
    (stateAfter3 env s0).processed_status ≠ some "SUCCESS" := by
  have from3 : (call_evaluate_data env (stateAfter2 env s0)).1.processed_status ≠ some "SUCCESS" →
      (stateAfter3 env s0).processed_status ≠ some "SUCCESS" := by
    intro h3
    rcases evaluate_data_sets_status env (stateAfter2 env s0) with ⟨v, hv⟩
    have hst : (stateAfter3 env s0).processed_status = some v :=
      applyPatch_status_some _ _ v hv
    rw [hst, ← hv]
    exact h3
  have from2 : (call_extract_data env (stateAfter1 env s0)).1.processed_status ≠ some "SUCCESS" →
      (stateAfter3 env s0).processed_status ≠ some "SUCCESS" := by
    intro h2
    apply from3
    have hs2 : (stateAfter2 env s0).processed_status ≠ some "SUCCESS" := by
      rcases extract_data_sets_status env (stateAfter1 env s0) with ⟨v, hv⟩
      have hst : (stateAfter2 env s0).processed_status = some v :=
        applyPatch_status_some _ _ v hv
      rw [hst, ← hv]
      exact h2
    rw [evaluate_data_guard env (stateAfter2 env s0) hs2]
    simp [failPatch]
  rcases h with h1 | h2 | h3
  · apply from2
    have hs1 : (stateAfter1 env s0).processed_status ≠ some "SUCCESS" := by
      rcases extract_images_sets_status env s0 with ⟨v, hv⟩
      have hst : (stateAfter1 env s0).processed_status = some v :=
        applyPatch_status_some _ _ v hv
      rw [hst, ← hv]
      exact h1
    rw [extract_data_guard env (stateAfter1 env s0) hs1]
    simp [failPatch]
  · exact from2 h2
  · exact from3 h3

/-! ## C4 (amended): the terminal error message after a pre-finalize failure -/

/-- C4 (amended): when any of the first three stages fails, every later
stage overwrites `error_message` with its own short-circuit wrapper, so
the terminal state's `error_message` is always the Finalize wrapper
`"Finalize failed because of corrupted data"` — not the first failing
stage's message. -/
theorem c4_amended_terminal_message (env : Env) (path : List String) (db : DB) (fs : FS)
    (h : (runPipeline env (initState path) db fs).p1.processed_status ≠ some "SUCCESS" ∨
         (runPipeline env (initState path) db fs).p2.processed_status ≠ some "SUCCESS" ∨
         (runPipeline env (initState path) db fs).p3.processed_status ≠ some "SUCCESS") :
    (runPipeline env (initState path) db fs).final.error_message =
      some "Finalize failed because of corrupted data" ∧
    (runPipeline env (initState path) db fs).final.processed_status = some "FAILED" := by
  have h3 : (stateAfter3 env (initState path)).processed_status ≠ some "SUCCESS" :=
    stateAfter3_not_success env (initState path) h
  have hf := finalize_guard env (stateAfter3 env (initState path)) db fs h3
  constructor
  · show (applyPatch (stateAfter3 env (initState path))
      (call_finalize env (stateAfter3 env (initState path)) db fs).patch).error_message = _
    rw [hf]
    rfl
  · show (applyPatch (stateAfter3 env (initState path))
      (call_finalize env (stateAfter3 env (initState path)) db fs).patch).processed_status = _
    rw [hf]
    rfl

/-- C4 (amended) witness: concrete extraction failure. -/
theorem c4_amended_witness :
    (runPipeline envExtractError (initState ["pdfs", "a.pdf"]) DB.empty fs0).p1.processed_status ≠
      some "SUCCESS" ∧
    (runPipeline envExtractError (initState ["pdfs", "a.pdf"]) DB.empty fs0).final.error_message =
      some "Finalize failed because of corrupted data" := by
  refine ⟨by decide, ?_⟩
  exact (c4_amended_terminal_message envExtractError ["pdfs", "a.pdf"] DB.empty fs0
    (Or.inl (by decide))).1

/-! ## C6 (amended): bounded best-effort stability wait -/

/-- C6 (amended): `stable_file` with its default three checks returns
through the size-match exit exactly when one of the two consecutive
read pairs is equal (the first read never matches the `-1` sentinel);
in every case it polls at most three times, and whatever the outcome a
non-duplicate dispatch still invokes the pipeline (the extraction
capability runs exactly once) — the wait is best-effort, not a
precondition. -/
theorem c6_amended_bounded_wait (env : Env) (path : List String) (db : DB) (fs : FS)
    (hdup : receipt_exists db (pathToString path) = false) :
    (stable_file env.sizes 3 = true ↔ (env.sizes 1 = env.sizes 0 ∨ env.sizes 2 = env.sizes 1)) ∧
    (process_pdf env path db fs).counts.extractImages = 1 ∧
    (process_pdf env path db fs).stableSaw = stable_file env.sizes 3 := by
  have hunfold : stable_file env.sizes 3 =
      (if ((env.sizes 0 : Int) = (-1 : Int)) then true
       else if ((env.sizes 1 : Int) = (env.sizes 0 : Int)) then true
       else if ((env.sizes 2 : Int) = (env.sizes 1 : Int)) then true
       else false) := rfl
  have h0 : ¬ ((env.sizes 0 : Int) = (-1 : Int)) := by omega
  constructor
  · rw [hunfold, if_neg h0]
    by_cases h1 : env.sizes 1 = env.sizes 0
    · rw [if_pos (by exact_mod_cast h1)]
      simp [h1]
    · rw [if_neg (by exact_mod_cast h1)]
      by_cases h2 : env.sizes 2 = env.sizes 1
      · rw [if_pos (by exact_mod_cast h2)]
        simp [h2]
      · rw [if_neg (by exact_mod_cast h2)]
        simp [h1, h2]
  · unfold process_pdf
    rw [hdup]
    simp only [Bool.false_eq_true, if_false]
    constructor
    · split
      · exact extract_images_invoked env _
      · exact extract_images_invoked env _
    · split
      · rfl
      · rfl

/-- C6 (amended) witness: a strictly growing size sequence never
matches, and the pipeline is dispatched anyway. -/
theorem c6_amended_witness :
    receipt_exists DB.empty (pathToString ["pdfs", "a.pdf"]) = false ∧
    (stable_file envExtractError.sizes 3 = true ↔
      (envExtractError.sizes 1 = envExtractError.sizes 0 ∨
       envExtractError.sizes 2 = envExtractError.sizes 1)) ∧
    (process_pdf envExtractError ["pdfs", "a.pdf"] DB.empty fs0).counts.extractImages = 1 := by
  have H := c6_amended_bounded_wait envExtractError ["pdfs", "a.pdf"] DB.empty fs0 (by decide)
  exact ⟨by decide, H.1, H.2.1⟩

/-! ## C8: exceptions inside a stage become FAILED patches -/

/-- C8: an exception raised by a stage's capability call (or, in
Finalize, by parsing `evaluated_data`) is caught inside the stage and
converted into a returned FAILED patch whose error message carries the
exception text; the stage functions are total, so nothing propagates
across the stage boundary, and the database and filesystem are left
untouched by the failing stage. -/
theorem c8_exception_capture (env : Env) (s : GraphState) (db : DB) (fs : FS) (e : String) :
    (env.extractImagesResult = CapOutcome.exn e →
      call_extract_images env s = (failPatch ("Extract images failed: " ++ e), 1)) ∧
    (s.processed_status = some "SUCCESS" → env.extractDataResult = CapOutcome.exn e →
      call_extract_data env s = (failPatch ("Extract data failed: " ++ e), 1)) ∧
    (s.processed_status = some "SUCCESS" → env.evaluateDataResult = CapOutcome.exn e →
      ∀ ex, s.extracted_json_str = some ex →
        call_evaluate_data env s = (failPatch ("LLM evaluation failed: " ++ e), 1)) ∧
    (s.processed_status = some "SUCCESS" → ∀ ed, s.evaluated_data = some ed →
      env.loads ed = Except.error e →
      call_finalize env s db fs = ⟨failPatch ("File management failed: " ++ e), db, fs, 0⟩) := by
  refine ⟨?_, ?_, ?_, ?_⟩
  · intro h
    unfold call_extract_images
    rw [h]
  · intro hs h
    unfold call_extract_data
    rw [if_neg (by simp [hs]), h]
  · intro hs h ex hex
    unfold call_evaluate_data
    rw [if_neg (by simp [hs]), hex, h]
  · intro hs ed hed hl
    unfold call_finalize
    rw [if_neg (by simp [hs])]
    simp only [hed, hl]

/-- Environment in which every capability call raises `boom` and every
JSON parse raises `boom`. -/
def envExn : Env :=
  { loads := fun _ => Except.error "boom"
    extractImagesResult := CapOutcome.exn "boom"
    extractDataResult := CapOutcome.exn "boom"
    evaluateDataResult := CapOutcome.exn "boom"
    manageMoveExn := none
    today := "241103"
    sizes := fun _ => 100 }

/-- A state that has passed the first three stages. -/
def stateW : GraphState :=
  { pdf_path := ["pdfs", "a.pdf"], image_paths := Json.arr []
    extracted_json_str := some "x", evaluated_data := some "y"
    processed_status := some "SUCCESS" }

/-- C8 witness: each stage applied where its capability raises. -/
theorem c8_exception_capture_witness :
    call_extract_images envExn stateW = (failPatch "Extract images failed: boom", 1) ∧
    call_extract_data envExn stateW = (failPatch "Extract data failed: boom", 1) ∧
    call_evaluate_data envExn stateW = (failPatch "LLM evaluation failed: boom", 1) ∧
    call_finalize envExn stateW DB.empty fs0 =
      ⟨failPatch "File management failed: boom", DB.empty, fs0, 0⟩ := by
  have H := c8_exception_capture envExn stateW DB.empty fs0 "boom"
  exact ⟨H.1 rfl, H.2.1 rfl rfl, H.2.2.1 rfl rfl "x" rfl, H.2.2.2 rfl "y" rfl rfl⟩

/-! ## Helper lemmas about file management and inserts -/

theorem pyStartsWith_success_ne_error (z : String) :
    pyStartsWith ("SUCCESS: moved to " ++ z) "ERROR:" = false := by
  rcases z with ⟨l⟩
  rfl

/-- With a succeeding move, `manage_processed_receipt_files` never
returns an `ERROR:` string. -/
theorem manage_ok (env : Env) (path : List String) (fs : FS) (valid : Bool) (id : String)
    (hmv : env.manageMoveExn = none) :
    pyStartsWith (manage_processed_receipt_files env path fs valid id).1 "ERROR:" = false := by
  unfold manage_processed_receipt_files
  rw [hmv]
  exact pyStartsWith_success_ne_error _

/-- With a succeeding move, the destination file exists afterwards. -/
theorem manage_dst_mem (env : Env) (path : List String) (fs : FS) (valid : Bool) (id : String)
    (hmv : env.manageMoveExn = none) :
    [(if valid then "success_pdfs" else "error_pdfs"), id ++ ".pdf"] ∈
      (manage_processed_receipt_files env path fs valid id).2.files := by
  cases valid <;>
    · unfold manage_processed_receipt_files
      rw [hmv]
      by_cases himg : fs.imagesDirExists = true <;>
        simp [moveFile, rmtreeImages, himg, List.mem_filter, List.mem_append]

/-- With a succeeding move, the source file is gone afterwards (unless
it coincides with the destination). -/
theorem manage_src_not_mem (env : Env) (path : List String) (fs : FS) (valid : Bool) (id : String)
    (hmv : env.manageMoveExn = none)
    (hne : path ≠ [(if valid then "success_pdfs" else "error_pdfs"), id ++ ".pdf"]) :
    path ∉ (manage_processed_receipt_files env path fs valid id).2.files := by
  cases valid <;>
    · simp only [Bool.false_eq_true, if_false, if_true] at hne
      unfold manage_processed_receipt_files
      rw [hmv]
      by_cases himg : fs.imagesDirExists = true <;>
        simp [moveFile, rmtreeImages, himg, List.mem_filter, List.mem_append, hne]

/-- `insert_success_receipt` appends exactly one row and returns its id. -/
theorem insert_success_spec (today : String) (db : DB) (name : String)
    (extracted vend : List (String × Json)) (fb sc : Json)
    (hv : getVendorObj extracted = Except.ok vend) :
    ∃ row : SuccessRow,
      insert_success_receipt today db name extracted fb sc =
        Except.ok ({ db with successful_receipts := db.successful_receipts ++ [row] },
          row.generated_receipt_id) ∧
      row.generated_receipt_id =
        nextReceiptId (db.successful_receipts.map (fun r => r.generated_receipt_id))
          (dateYYMMDDOf extracted today) ∧
      row.original_pdf_filename = name ∧ row.feedback = fb ∧ row.evaluation_score = sc := by
  unfold insert_success_receipt
  rw [hv]
  exact ⟨_, rfl, rfl, rfl, rfl, rfl⟩

/-- `insert_failed_receipt` appends exactly one row and returns its id. -/
theorem insert_failed_spec (today : String) (db : DB) (name emsg : String)
    (extracted vend : List (String × Json)) (fb sc : Json)
    (hv : getVendorObj extracted = Except.ok vend) :
    ∃ row : FailedRow,
      insert_failed_receipt today db name emsg extracted fb sc =
        Except.ok ({ db with failed_receipts := db.failed_receipts ++ [row] },
          row.generated_receipt_id) ∧
      row.generated_receipt_id =
        nextReceiptId (db.failed_receipts.map (fun r => r.generated_receipt_id))
          (dateYYMMDDOf extracted today) ∧
      row.original_pdf_filename = name ∧ row.error_message = emsg ∧
      row.feedback = fb ∧ row.evaluation_score = sc := by
  unfold insert_failed_receipt
  rw [hv]
  exact ⟨_, rfl, rfl, rfl, rfl, rfl, rfl⟩

/-- The generated id always has the shape `prefix ++ "_" ++ pad3 k`. -/
theorem nextReceiptId_shape (ids : List String) (pfx : String) :
    ∃ k, nextReceiptId ids pfx = pfx ++ "_" ++ pad3 k :=
  ⟨_, rfl⟩

/-! ## C9 (amended): the whole shared images folder is deleted -/

/-- C9 (amended): when the finalize-stage file move succeeds, the file
management step deletes the single **shared** cropped-images folder in
its entirety — afterwards no file under `images` exists at all,
including cropped pages belonging to other runs (there is no per-file
subdirectory in this code), and the call reports success. -/
theorem c9_amended_shared_folder (env : Env) (path : List String) (fs : FS)
    (valid : Bool) (id : String)
    (hmv : env.manageMoveExn = none) (himg : fs.imagesDirExists = true) :
    pyStartsWith (manage_processed_receipt_files env path fs valid id).1 "ERROR:" = false ∧
    ∀ p ∈ (manage_processed_receipt_files env path fs valid id).2.files,
      p.head? ≠ some "images" := by
  refine ⟨manage_ok env path fs valid id hmv, ?_⟩
  unfold manage_processed_receipt_files
  rw [hmv]
  simp only []
  have hdir : (moveFile fs path
      [(if valid then "success_pdfs" else "error_pdfs"), id ++ ".pdf"]).imagesDirExists = true := himg
  rw [if_pos hdir]
  intro p hp
  rcases List.mem_filter.mp hp with ⟨_, hpred⟩
  simpa using hpred

/-- C9 (amended) witness. -/
theorem c9_amended_witness :
    envAccept.manageMoveExn = none ∧ fsTwoRuns.imagesDirExists = true ∧
    (∀ p ∈ (manage_processed_receipt_files envAccept ["pdfs", "a.pdf"] fsTwoRuns true "241103_001").2.files,
      p.head? ≠ some "images") := by
  refine ⟨rfl, rfl, ?_⟩
  exact (c9_amended_shared_folder envAccept ["pdfs", "a.pdf"] fsTwoRuns true "241103_001" rfl rfl).2

/-! ## C10: the id's date comes from the extracted 日付 field -/

/-- Ids returned by the insert helpers, exposing only the relevant parts. -/
theorem insert_success_id (today : String) (db : DB) (name : String)
    (extracted vend : List (String × Json)) (fb sc : Json)
    (hv : getVendorObj extracted = Except.ok vend) :
    ∃ db1, insert_success_receipt today db name extracted fb sc =
      Except.ok (db1, nextReceiptId (db.successful_receipts.map (fun r => r.generated_receipt_id))
        (dateYYMMDDOf extracted today)) := by
  unfold insert_success_receipt
  rw [hv]
  exact ⟨_, rfl⟩

theorem insert_failed_id (today : String) (db : DB) (name emsg : String)
    (extracted vend : List (String × Json)) (fb sc : Json)
    (hv : getVendorObj extracted = Except.ok vend) :
    ∃ db1, insert_failed_receipt today db name emsg extracted fb sc =
      Except.ok (db1, nextReceiptId (db.failed_receipts.map (fun r => r.generated_receipt_id))
        (dateYYMMDDOf extracted today)) := by
  unfold insert_failed_receipt
  rw [hv]
  exact ⟨_, rfl⟩

/-- C10: for both inserts, the date half of the generated id is the
extracted `日付` value parsed as `YYYYMMDD` and reformatted `%y%m%d` —
independent of the processing date — and falls back to the current date
exactly when the field is missing, falsy, or unparsable. -/
theorem c10_id_date_from_extracted (today : String) (db : DB) (name emsg : String)
    (extracted vend : List (String × Json)) (fb sc : Json)
    (hv : getVendorObj extracted = Except.ok vend) :
    (∀ s y m d, lookupJ extracted "日付" = some (Json.str s) → s ≠ "" →
      parseYYYYMMDD s = some (y, m, d) →
      (∃ k db1, insert_success_receipt today db name extracted fb sc =
        Except.ok (db1, fmtYYMMDD y m d ++ "_" ++ pad3 k)) ∧
      (∃ k db1, insert_failed_receipt today db name emsg extracted fb sc =
        Except.ok (db1, fmtYYMMDD y m d ++ "_" ++ pad3 k))) ∧
    (lookupJ extracted "日付" = none →
      (∃ k db1, insert_success_receipt today db name extracted fb sc =
        Except.ok (db1, today ++ "_" ++ pad3 k)) ∧
      (∃ k db1, insert_failed_receipt today db name emsg extracted fb sc =
        Except.ok (db1, today ++ "_" ++ pad3 k))) ∧
    (∀ s, lookupJ extracted "日付" = some (Json.str s) → parseYYYYMMDD s = none →
      (∃ k db1, insert_success_receipt today db name extracted fb sc =
        Except.ok (db1, today ++ "_" ++ pad3 k)) ∧
      (∃ k db1, insert_failed_receipt today db name emsg extracted fb sc =
        Except.ok (db1, today ++ "_" ++ pad3 k))) := by
  have main : ∀ pfx, dateYYMMDDOf extracted today = pfx →
      (∃ k db1, insert_success_receipt today db name extracted fb sc =
        Except.ok (db1, pfx ++ "_" ++ pad3 k)) ∧
      (∃ k db1, insert_failed_receipt today db name emsg extracted fb sc =
        Except.ok (db1, pfx ++ "_" ++ pad3 k)) := by
    intro pfx hpfx
    constructor
    · rcases insert_success_id today db name extracted vend fb sc hv with ⟨db1, h1⟩
      rcases nextReceiptId_shape (db.successful_receipts.map (fun r => r.generated_receipt_id))
        (dateYYMMDDOf extracted today) with ⟨k, hk⟩
      refine ⟨k, db1, ?_⟩
      rw [h1, hk, hpfx]
    · rcases insert_failed_id today db name emsg extracted vend fb sc hv with ⟨db1, h1⟩
      rcases nextReceiptId_shape (db.failed_receipts.map (fun r => r.generated_receipt_id))
        (dateYYMMDDOf extracted today) with ⟨k, hk⟩
      refine ⟨k, db1, ?_⟩
      rw [h1, hk, hpfx]
  refine ⟨?_, ?_, ?_⟩
  · intro s y m d hd hs hparse
    apply main
    unfold dateYYMMDDOf
    simp only [hd]
    simp only [if_neg hs, hparse]
  · intro hd
    apply main
    unfold dateYYMMDDOf
    simp only [hd]
  · intro s hd hparse
    apply main
    unfold dateYYMMDDOf
    simp only [hd]
    by_cases hs : s = ""
    · rw [if_pos hs]
    · simp only [if_neg hs, hparse]

/-- C10 witness: a receipt extracted in March 2023 inserted on
2024-11-03 gets the id prefix `230315`, not `241103`; with the field
missing, the processing date is used. -/
theorem c10_witness :
    (∃ k db1, insert_success_receipt "241103" DB.empty "a.pdf"
      [("日付", Json.str "20230315")] Json.null Json.null =
        Except.ok (db1, fmtYYMMDD 2023 3 15 ++ "_" ++ pad3 k)) ∧
    (∃ k db1, insert_failed_receipt "241103" DB.empty "a.pdf" "msg" [] Json.null Json.null =
        Except.ok (db1, "241103" ++ "_" ++ pad3 k)) := by
  refine ⟨?_, ?_⟩
  · exact ((c10_id_date_from_extracted "241103" DB.empty "a.pdf" "msg"
      [("日付", Json.str "20230315")] [] Json.null Json.null rfl).1 "20230315" 2023 3 15
      rfl (by decide) rfl).1
  · exact ((c10_id_date_from_extracted "241103" DB.empty "a.pdf" "msg"
      [] [] Json.null Json.null rfl).2.1 rfl).2

/-! ## C2: the strict score > 75 acceptance rule -/

/-- C2: for a run reaching Finalize with SUCCESS whose evaluation
parses to an integer score `n`: `n > 75` inserts a success row (with the
score and feedback) and moves the PDF to the success directory as
`{id}.pdf`; `n ≤ 75` inserts a failed row carrying the fixed localized
low-confidence message and moves the PDF to the error directory.  In
particular 75 is rejected and 76 accepted (see the witness). -/
theorem c2_acceptance_threshold (env : Env) (s : GraphState) (db : DB) (fs : FS)
    (ed ex : String) (n : Int) (fb : Json) (evFields exf vend : List (String × Json))
    (hst : s.processed_status = some "SUCCESS")
    (hed : s.evaluated_data = some ed)
    (hev : env.loads ed = Except.ok (Json.obj evFields))
    (hscore : lookupJ evFields "evaluation_score" = some (Json.num n))
    (hfb : lookupJ evFields "feedback" = some fb)
    (hex : s.extracted_json_str = some ex)
    (hexl : env.loads ex = Except.ok (Json.obj exf))
    (hvend : getVendorObj exf = Except.ok vend)
    (hmv : env.manageMoveExn = none) :
    (n > 75 →
      ∃ id row,
        (call_finalize env s db fs).db.successful_receipts = db.successful_receipts ++ [row] ∧
        (call_finalize env s db fs).db.failed_receipts = db.failed_receipts ∧
        (call_finalize env s db fs).patch = { processed_status := some "SUCCESS" } ∧
        row.generated_receipt_id = id ∧
        row.original_pdf_filename = basenameOf s.pdf_path ∧
        row.feedback = fb ∧
        row.evaluation_score = Json.num n ∧
        ["success_pdfs", id ++ ".pdf"] ∈ (call_finalize env s db fs).fs.files) ∧
    (n ≤ 75 →
      ∃ id row,
        (call_finalize env s db fs).db.failed_receipts = db.failed_receipts ++ [row] ∧
        (call_finalize env s db fs).db.successful_receipts = db.successful_receipts ∧
        (call_finalize env s db fs).patch = { processed_status := some "SUCCESS" } ∧
        row.generated_receipt_id = id ∧
        row.original_pdf_filename = basenameOf s.pdf_path ∧
        row.error_message = "評価スコアが低いため、処理に失敗しました。" ∧
        row.feedback = fb ∧
        row.evaluation_score = Json.num n ∧
        ["error_pdfs", id ++ ".pdf"] ∈ (call_finalize env s db fs).fs.files) := by
  constructor
  · intro h75
    rcases insert_success_spec env.today db (basenameOf s.pdf_path) exf vend fb (Json.num n) hvend
      with ⟨row, hins, _, hname, hfb2, hsc⟩
    have hcf : call_finalize env s db fs =
        ⟨{ processed_status := some "SUCCESS" },
         { db with successful_receipts := db.successful_receipts ++ [row] },
         (manage_processed_receipt_files env s.pdf_path fs true row.generated_receipt_id).2, 1⟩ := by
      unfold call_finalize
      rw [if_neg (by simp [hst])]
      simp only [hed, hev]
      simp only [getItem]
      simp only [hscore, hfb]
      rw [if_pos h75]
      simp only [hex, hexl, hins]
      simp only [manage_ok env s.pdf_path fs true row.generated_receipt_id hmv,
        Bool.false_eq_true, if_false]
    refine ⟨row.generated_receipt_id, row, ?_, ?_, ?_, rfl, hname, hfb2, hsc, ?_⟩
    · rw [hcf]
    · rw [hcf]
    · rw [hcf]
    · rw [hcf]
      exact manage_dst_mem env s.pdf_path fs true row.generated_receipt_id hmv
  · intro h75
    rcases insert_failed_spec env.today db (basenameOf s.pdf_path)
      "評価スコアが低いため、処理に失敗しました。" exf vend fb (Json.num n) hvend
      with ⟨row, hins, _, hname, hmsg, hfb2, hsc⟩
    have hcf : call_finalize env s db fs =
        ⟨{ processed_status := some "SUCCESS" },
         { db with failed_receipts := db.failed_receipts ++ [row] },
         (manage_processed_receipt_files env s.pdf_path fs false row.generated_receipt_id).2, 1⟩ := by
      unfold call_finalize
      rw [if_neg (by simp [hst])]
      simp only [hed, hev]
      simp only [getItem]
      simp only [hscore, hfb]
      rw [if_neg (not_lt.mpr h75)]
      simp only [hex, hexl, hins]
      simp only [manage_ok env s.pdf_path fs false row.generated_receipt_id hmv,
        Bool.false_eq_true, if_false]
    refine ⟨row.generated_receipt_id, row, ?_, ?_, ?_, rfl, hname, hmsg, hfb2, hsc, ?_⟩
    · rw [hcf]
    · rw [hcf]
    · rw [hcf]
    · rw [hcf]
      exact manage_dst_mem env s.pdf_path fs false row.generated_receipt_id hmv

/-- A state that reached Finalize with score 76 (via `loads0`). -/
def stateEv76 : GraphState :=
  { pdf_path := ["pdfs", "a.pdf"], image_paths := Json.arr []
    extracted_json_str := some "EX", evaluated_data := some "EV76"
    processed_status := some "SUCCESS" }

/-- A state that reached Finalize with score 75. -/
def stateEv75 : GraphState :=
  { pdf_path := ["pdfs", "a.pdf"], image_paths := Json.arr []
    extracted_json_str := some "EX", evaluated_data := some "EV75"
    processed_status := some "SUCCESS" }

/-- C2 witness: score 76 is accepted (success row, success dir), score
exactly 75 is rejected (failed row with the fixed message, error dir). -/
theorem c2_acceptance_threshold_witness :
    ((76 : Int) > 75) ∧ ((75 : Int) ≤ 75) ∧
    (∃ id row,
      (call_finalize envAccept stateEv76 DB.empty fs0).db.successful_receipts = [] ++ [row] ∧
      (call_finalize envAccept stateEv76 DB.empty fs0).db.failed_receipts = [] ∧
      (call_finalize envAccept stateEv76 DB.empty fs0).patch = { processed_status := some "SUCCESS" } ∧
      row.generated_receipt_id = id ∧
      row.original_pdf_filename = basenameOf stateEv76.pdf_path ∧
      row.feedback = Json.str "ok" ∧
      row.evaluation_score = Json.num 76 ∧
      ["success_pdfs", id ++ ".pdf"] ∈ (call_finalize envAccept stateEv76 DB.empty fs0).fs.files) ∧
    (∃ id row,
      (call_finalize envAccept stateEv75 DB.empty fs0).db.failed_receipts = [] ++ [row] ∧
      (call_finalize envAccept stateEv75 DB.empty fs0).db.successful_receipts = [] ∧
      (call_finalize envAccept stateEv75 DB.empty fs0).patch = { processed_status := some "SUCCESS" } ∧
      row.generated_receipt_id = id ∧
      row.original_pdf_filename = basenameOf stateEv75.pdf_path ∧
      row.error_message = "評価スコアが低いため、処理に失敗しました。" ∧
      row.feedback = Json.str "ok" ∧
      row.evaluation_score = Json.num 75 ∧
      ["error_pdfs", id ++ ".pdf"] ∈ (call_finalize envAccept stateEv75 DB.empty fs0).fs.files) := by
  refine ⟨by decide, by decide, ?_, ?_⟩
  · exact (c2_acceptance_threshold envAccept stateEv76 DB.empty fs0 "EV76" "EX" 76
      (Json.str "ok") [("evaluation_score", Json.num 76), ("feedback", Json.str "ok")]
      [("日付", Json.str "20241103")] [] rfl rfl rfl rfl rfl rfl rfl rfl rfl).1 (by decide)
  · exact (c2_acceptance_threshold envAccept stateEv75 DB.empty fs0 "EV75" "EX" 75
      (Json.str "ok") [("evaluation_score", Json.num 75), ("feedback", Json.str "ok")]
      [("日付", Json.str "20241103")] [] rfl rfl rfl rfl rfl rfl rfl rfl rfl).2 (by decide)

/-! ## Outcome case analysis for the C1 theorem -/

theorem stage1_cases (env : Env) (s : GraphState) :
    (∃ m, call_extract_images env s = (failPatch m, 1)) ∨
    (∃ v, call_extract_images env s =
      ({ image_paths := some v, processed_status := some "SUCCESS" }, 1)) := by
  unfold call_extract_images
  repeat' split
  all_goals first
    | exact Or.inl ⟨_, rfl⟩
    | exact Or.inr ⟨_, rfl⟩

theorem stage2_cases (env : Env) (s : GraphState) (h : s.processed_status = some "SUCCESS") :
    (∃ m, call_extract_data env s = (failPatch m, 1)) ∨
    (∃ r, call_extract_data env s =
      ({ extracted_json_str := some r, processed_status := some "SUCCESS" }, 1)) := by
  unfold call_extract_data
  rw [if_neg (by simp [h])]
  repeat' split
  all_goals first
    | exact Or.inl ⟨_, rfl⟩
    | exact Or.inr ⟨_, rfl⟩

theorem stage3_cases (env : Env) (s : GraphState) (h : s.processed_status = some "SUCCESS") :
    (∃ m c, call_evaluate_data env s = (failPatch m, c)) ∨
    (∃ r, call_evaluate_data env s =
      ({ evaluated_data := some r, processed_status := some "SUCCESS" }, 1)) := by
  unfold call_evaluate_data
  rw [if_neg (by simp [h])]
  repeat' split
  all_goals first
    | exact Or.inl ⟨_, _, rfl⟩
    | exact Or.inr ⟨_, rfl⟩

/-- Complete outcome analysis of the finalize stage under a succeeding
move: it either fails before any effect (database and filesystem
untouched), or it inserts exactly one success row and relocates the file
to the success folder, or inserts exactly one failed row and relocates
the file to the error folder. -/
theorem finalize_cases (env : Env) (s : GraphState) (db : DB) (fs : FS)
    (h : s.processed_status = some "SUCCESS") (hmv : env.manageMoveExn = none) :
    (∃ m, call_finalize env s db fs = ⟨failPatch m, db, fs, 0⟩) ∨
    (∃ row : SuccessRow, call_finalize env s db fs =
      ⟨{ processed_status := some "SUCCESS" },
       { db with successful_receipts := db.successful_receipts ++ [row] },
       (manage_processed_receipt_files env s.pdf_path fs true row.generated_receipt_id).2, 1⟩ ∧
      row.original_pdf_filename = basenameOf s.pdf_path) ∨
    (∃ row : FailedRow, call_finalize env s db fs =
      ⟨{ processed_status := some "SUCCESS" },
       { db with failed_receipts := db.failed_receipts ++ [row] },
       (manage_processed_receipt_files env s.pdf_path fs false row.generated_receipt_id).2, 1⟩ ∧
      row.original_pdf_filename = basenameOf s.pdf_path) := by
  have hg : ¬ (s.processed_status ≠ some "SUCCESS") := by simp [h]
  rcases hed : s.evaluated_data with _ | ed
  · exact Or.inl ⟨_, by unfold call_finalize; rw [if_neg hg]; simp only [hed]; rfl⟩
  rcases hev : env.loads ed with e | evj
  · exact Or.inl ⟨_, by unfold call_finalize; rw [if_neg hg]; simp only [hed, hev]; rfl⟩
  rcases hsc : getItem evj "evaluation_score" with e | score
  · exact Or.inl ⟨_, by unfold call_finalize; rw [if_neg hg]; simp only [hed, hev, hsc]; rfl⟩
  rcases hfb : getItem evj "feedback" with e | fbv
  · exact Or.inl ⟨_, by unfold call_finalize; rw [if_neg hg]; simp only [hed, hev, hsc, hfb]; rfl⟩
  rcases score with _ | s2 | n | l | flds
  case str =>
    exact Or.inl ⟨_, by unfold call_finalize; rw [if_neg hg]; simp only [hed, hev, hsc, hfb]; rfl⟩
  case null =>
    exact Or.inl ⟨_, by unfold call_finalize; rw [if_neg hg]; simp only [hed, hev, hsc, hfb]; rfl⟩
  case arr =>
    exact Or.inl ⟨_, by unfold call_finalize; rw [if_neg hg]; simp only [hed, hev, hsc, hfb]; rfl⟩
  case obj =>
    exact Or.inl ⟨_, by unfold call_finalize; rw [if_neg hg]; simp only [hed, hev, hsc, hfb]; rfl⟩
  case num =>
  by_cases h75 : n > 75
  · rcases hex : s.extracted_json_str with _ | ex
    · exact Or.inl ⟨_, by
        unfold call_finalize; rw [if_neg hg]; simp only [hed, hev, hsc, hfb]
        rw [if_pos h75]; simp only [hex]; rfl⟩
    rcases hexl : env.loads ex with e | exj
    · exact Or.inl ⟨_, by
        unfold call_finalize; rw [if_neg hg]; simp only [hed, hev, hsc, hfb]
        rw [if_pos h75]; simp only [hex, hexl]; rfl⟩
    rcases exj with _ | s3 | n3 | l3 | exf <;>
      try exact Or.inl ⟨_, by
        unfold call_finalize; rw [if_neg hg]; simp only [hed, hev, hsc, hfb]
        rw [if_pos h75]; simp only [hex, hexl]; rfl⟩
    rcases hgv : getVendorObj exf with e | vend
    · refine Or.inl ⟨"File management failed: " ++ e, ?_⟩
      unfold call_finalize
      rw [if_neg hg]
      simp only [hed, hev, hsc, hfb]
      rw [if_pos h75]
      have hins : insert_success_receipt env.today db (basenameOf s.pdf_path) exf fbv
          (Json.num n) = Except.error e := by
        unfold insert_success_receipt
        rw [hgv]
      simp only [hex, hexl, hins]
    · rcases insert_success_spec env.today db (basenameOf s.pdf_path) exf vend fbv (Json.num n)
        hgv with ⟨row, hins, _, hname, _, _⟩
      refine Or.inr (Or.inl ⟨row, ?_, hname⟩)
      unfold call_finalize
      rw [if_neg hg]
      simp only [hed, hev, hsc, hfb]
      rw [if_pos h75]
      simp only [hex, hexl, hins]
      simp only [manage_ok env s.pdf_path fs true row.generated_receipt_id hmv,
        Bool.false_eq_true, if_false]
  · rcases hex : s.extracted_json_str with _ | ex
    · exact Or.inl ⟨_, by
        unfold call_finalize; rw [if_neg hg]; simp only [hed, hev, hsc, hfb]
        rw [if_neg h75]; simp only [hex]; rfl⟩
    rcases hexl : env.loads ex with e | exj
    · exact Or.inl ⟨_, by
        unfold call_finalize; rw [if_neg hg]; simp only [hed, hev, hsc, hfb]
        rw [if_neg h75]; simp only [hex, hexl]; rfl⟩
    rcases exj with _ | s3 | n3 | l3 | exf <;>
      try exact Or.inl ⟨_, by
        unfold call_finalize; rw [if_neg hg]; simp only [hed, hev, hsc, hfb]
        rw [if_neg h75]; simp only [hex, hexl]; rfl⟩
    rcases hgv : getVendorObj exf with e | vend
    · refine Or.inl ⟨"File management failed: " ++ e, ?_⟩
      unfold call_finalize
      rw [if_neg hg]
      simp only [hed, hev, hsc, hfb]
      rw [if_neg h75]
      have hins : insert_failed_receipt env.today db (basenameOf s.pdf_path)
          "評価スコアが低いため、処理に失敗しました。" exf fbv (Json.num n) = Except.error e := by
        unfold insert_failed_receipt
        rw [hgv]
      simp only [hex, hexl, hins]
    · rcases insert_failed_spec env.today db (basenameOf s.pdf_path)
        "評価スコアが低いため、処理に失敗しました。" exf vend fbv (Json.num n) hgv
        with ⟨row, hins, _, hname, _, _, _⟩
      refine Or.inr (Or.inr ⟨row, ?_, hname⟩)
      unfold call_finalize
      rw [if_neg hg]
      simp only [hed, hev, hsc, hfb]
      rw [if_neg h75]
      simp only [hex, hexl, hins]
      simp only [manage_ok env s.pdf_path fs false row.generated_receipt_id hmv,
        Bool.false_eq_true, if_false]

theorem moveFile_dst_mem (fs : FS) (src dst : List String) :
    dst ∈ (moveFile fs src dst).files := by
  simp [moveFile]

theorem moveFile_src_not_mem (fs : FS) (src dst : List String) (hne : src ≠ dst) :
    src ∉ (moveFile fs src dst).files := by
  simp [moveFile, List.mem_filter, List.mem_append, hne]

/-! ## C1 (amended): terminal locations and rows -/

/-- C1 (amended): for any completed dispatch of `pdfs/{name}` with a
succeeding file move, the PDF is moved out of the input directory, and
exactly one of the following holds: (a) Finalize accepted the receipt —
one new row in `successful_receipts` and the PDF is in the success
directory as `{id}.pdf`; (b) one new failed row was written (Finalize
rejection: PDF at `error_pdfs/{id}.pdf`; duplicate branch: PDF at
`error_pdfs/{name}`); (c) the run failed before Finalize's insert — the
database is completely unchanged and the PDF sits in the error
directory under its **original** name.  (The original claim's
"a corresponding row always exists, keyed by the id embedded in the
relocated name" holds only in case (a) and the rejection half of (b).) -/
theorem c1_amended_outcomes (env : Env) (db : DB) (fs : FS) (name : String)
    (hmv : env.manageMoveExn = none)
    (_hfs : ["pdfs", name] ∈ fs.files) :
    ["pdfs", name] ∉ (process_pdf env ["pdfs", name] db fs).fs.files ∧
    ((∃ row : SuccessRow,
        (process_pdf env ["pdfs", name] db fs).db.successful_receipts =
          db.successful_receipts ++ [row] ∧
        (process_pdf env ["pdfs", name] db fs).db.failed_receipts = db.failed_receipts ∧
        row.original_pdf_filename = name ∧
        ["success_pdfs", row.generated_receipt_id ++ ".pdf"] ∈
          (process_pdf env ["pdfs", name] db fs).fs.files) ∨
     (∃ row : FailedRow,
        (process_pdf env ["pdfs", name] db fs).db.failed_receipts =
          db.failed_receipts ++ [row] ∧
        (process_pdf env ["pdfs", name] db fs).db.successful_receipts =
          db.successful_receipts ∧
        row.original_pdf_filename = name ∧
        (["error_pdfs", row.generated_receipt_id ++ ".pdf"] ∈
            (process_pdf env ["pdfs", name] db fs).fs.files ∨
         ["error_pdfs", name] ∈ (process_pdf env ["pdfs", name] db fs).fs.files)) ∨
     ((process_pdf env ["pdfs", name] db fs).db = db ∧
        ["error_pdfs", name] ∈ (process_pdf env ["pdfs", name] db fs).fs.files)) := by
  have hne : (["pdfs", name] : List String) ≠ ["error_pdfs", name] := by simp
  by_cases hdup : receipt_exists db (pathToString ["pdfs", name]) = true
  · -- duplicate branch
    rcases insert_failed_spec env.today db name "同じ名前のファイルは既に処理されています" []
      [] Json.null Json.null rfl with ⟨row, hins, _, hname, _, _, _⟩
    have hpr : process_pdf env ["pdfs", name] db fs =
        ⟨{ db with failed_receipts := db.failed_receipts ++ [row] },
         moveFile fs ["pdfs", name] ["error_pdfs", name], CapCounts.zero, false⟩ := by
      unfold process_pdf
      rw [if_pos hdup]
      simp only [show basenameOf ["pdfs", name] = name from rfl]
      simp only [hins]
    rw [hpr]
    refine ⟨moveFile_src_not_mem fs _ _ hne, Or.inr (Or.inl ⟨row, rfl, rfl, hname, Or.inr ?_⟩)⟩
    exact moveFile_dst_mem fs _ _
  · -- pipeline branch
    have else_pr : (runPipeline env (initState ["pdfs", name]) db fs).p4.processed_status ≠
        some "SUCCESS" →
        process_pdf env ["pdfs", name] db fs =
          ⟨(runPipeline env (initState ["pdfs", name]) db fs).db,
           moveFile (runPipeline env (initState ["pdfs", name]) db fs).fs ["pdfs", name]
             ["error_pdfs", name],
           (runPipeline env (initState ["pdfs", name]) db fs).counts,
           stable_file env.sizes 3⟩ := by
      intro hstat
      unfold process_pdf
      rw [if_neg hdup]
      simp only [show basenameOf ["pdfs", name] = name from rfl]
      rw [if_neg hstat]
    have then_pr : (runPipeline env (initState ["pdfs", name]) db fs).p4.processed_status =
        some "SUCCESS" →
        process_pdf env ["pdfs", name] db fs =
          ⟨(runPipeline env (initState ["pdfs", name]) db fs).db,
           (runPipeline env (initState ["pdfs", name]) db fs).fs,
           (runPipeline env (initState ["pdfs", name]) db fs).counts,
           stable_file env.sizes 3⟩ := by
      intro hstat
      unfold process_pdf
      rw [if_neg hdup]
      simp only [show basenameOf ["pdfs", name] = name from rfl]
      rw [if_pos hstat]
    have conclude_guard : (stateAfter3 env (initState ["pdfs", name])).processed_status ≠
        some "SUCCESS" →
        ["pdfs", name] ∉ (process_pdf env ["pdfs", name] db fs).fs.files ∧
        ((process_pdf env ["pdfs", name] db fs).db = db ∧
          ["error_pdfs", name] ∈ (process_pdf env ["pdfs", name] db fs).fs.files) := by
      intro h3
      have hf := finalize_guard env (stateAfter3 env (initState ["pdfs", name])) db fs h3
      have hstat : (runPipeline env (initState ["pdfs", name]) db fs).p4.processed_status ≠
          some "SUCCESS" := by
        show (call_finalize env (stateAfter3 env (initState ["pdfs", name]))
          db fs).patch.processed_status ≠ some "SUCCESS"
        rw [hf]
        simp [failPatch]
      have hdb : (runPipeline env (initState ["pdfs", name]) db fs).db = db := by
        show (call_finalize env (stateAfter3 env (initState ["pdfs", name])) db fs).db = db
        rw [hf]
      have hfs2 : (runPipeline env (initState ["pdfs", name]) db fs).fs = fs := by
        show (call_finalize env (stateAfter3 env (initState ["pdfs", name])) db fs).fs = fs
        rw [hf]
      rw [else_pr hstat, hdb, hfs2]
      exact ⟨moveFile_src_not_mem _ _ _ hne, rfl, moveFile_dst_mem _ _ _⟩
    rcases stage1_cases env (initState ["pdfs", name]) with ⟨m, h1⟩ | ⟨v, h1⟩
    · rcases conclude_guard (stateAfter3_not_success env (initState ["pdfs", name])
        (Or.inl (by rw [h1]; simp [failPatch]))) with ⟨hnot, hc⟩
      exact ⟨hnot, Or.inr (Or.inr hc)⟩
    · have hs1 : (stateAfter1 env (initState ["pdfs", name])).processed_status =
          some "SUCCESS" :=
        applyPatch_status_some _ _ _ (by rw [h1])
      rcases stage2_cases env (stateAfter1 env (initState ["pdfs", name])) hs1 with
        ⟨m, h2⟩ | ⟨r2, h2⟩
      · rcases conclude_guard (stateAfter3_not_success env (initState ["pdfs", name])
          (Or.inr (Or.inl (by rw [h2]; simp [failPatch])))) with ⟨hnot, hc⟩
        exact ⟨hnot, Or.inr (Or.inr hc)⟩
      · have hs2 : (stateAfter2 env (initState ["pdfs", name])).processed_status =
            some "SUCCESS" :=
          applyPatch_status_some _ _ _ (by rw [h2])
        rcases stage3_cases env (stateAfter2 env (initState ["pdfs", name])) hs2 with
          ⟨m, c, h3⟩ | ⟨r3, h3⟩
        · rcases conclude_guard (stateAfter3_not_success env (initState ["pdfs", name])
            (Or.inr (Or.inr (by rw [h3]; simp [failPatch])))) with ⟨hnot, hc⟩
          exact ⟨hnot, Or.inr (Or.inr hc)⟩
        · have hs3 : (stateAfter3 env (initState ["pdfs", name])).processed_status =
              some "SUCCESS" :=
            applyPatch_status_some _ _ _ (by rw [h3])
          rcases finalize_cases env (stateAfter3 env (initState ["pdfs", name])) db fs hs3 hmv with
            ⟨m, hcf⟩ | ⟨row, hcf, hname⟩ | ⟨row, hcf, hname⟩
          · -- finalize failed before any effect
            have hstat : (runPipeline env (initState ["pdfs", name]) db fs).p4.processed_status ≠
                some "SUCCESS" := by
              show (call_finalize env (stateAfter3 env (initState ["pdfs", name]))
                db fs).patch.processed_status ≠ some "SUCCESS"
              rw [hcf]
              simp [failPatch]
            have hdb : (runPipeline env (initState ["pdfs", name]) db fs).db = db := by
              show (call_finalize env (stateAfter3 env (initState ["pdfs", name])) db fs).db = db
              rw [hcf]
            have hfs2 : (runPipeline env (initState ["pdfs", name]) db fs).fs = fs := by
              show (call_finalize env (stateAfter3 env (initState ["pdfs", name])) db fs).fs = fs
              rw [hcf]
            rw [else_pr hstat, hdb, hfs2]
            exact ⟨moveFile_src_not_mem _ _ _ hne,
              Or.inr (Or.inr ⟨rfl, moveFile_dst_mem _ _ _⟩)⟩
          · -- accepted
            have hstat : (runPipeline env (initState ["pdfs", name]) db fs).p4.processed_status =
                some "SUCCESS" := by
              show (call_finalize env (stateAfter3 env (initState ["pdfs", name]))
                db fs).patch.processed_status = some "SUCCESS"
              rw [hcf]
            have hdb : (runPipeline env (initState ["pdfs", name]) db fs).db =
                { db with successful_receipts := db.successful_receipts ++ [row] } := by
              show (call_finalize env (stateAfter3 env (initState ["pdfs", name])) db fs).db = _
              rw [hcf]
            have hfs2 : (runPipeline env (initState ["pdfs", name]) db fs).fs =
                (manage_processed_receipt_files env
                  (stateAfter3 env (initState ["pdfs", name])).pdf_path fs true
                  row.generated_receipt_id).2 := by
              show (call_finalize env (stateAfter3 env (initState ["pdfs", name])) db fs).fs = _
              rw [hcf]
            rw [then_pr hstat, hdb, hfs2]
            have hname2 : row.original_pdf_filename = name := hname
            refine ⟨?_, Or.inl ⟨row, rfl, rfl, hname2, ?_⟩⟩
            · exact manage_src_not_mem env _ fs true row.generated_receipt_id hmv
                (by simp : (["pdfs", name] : List String) ≠
                  ["success_pdfs", row.generated_receipt_id ++ ".pdf"])
            · exact manage_dst_mem env _ fs true row.generated_receipt_id hmv
          · -- rejected
            have hstat : (runPipeline env (initState ["pdfs", name]) db fs).p4.processed_status =
                some "SUCCESS" := by
              show (call_finalize env (stateAfter3 env (initState ["pdfs", name]))
                db fs).patch.processed_status = some "SUCCESS"
              rw [hcf]
            have hdb : (runPipeline env (initState ["pdfs", name]) db fs).db =
                { db with failed_receipts := db.failed_receipts ++ [row] } := by
              show (call_finalize env (stateAfter3 env (initState ["pdfs", name])) db fs).db = _
              rw [hcf]
            have hfs2 : (runPipeline env (initState ["pdfs", name]) db fs).fs =
                (manage_processed_receipt_files env
                  (stateAfter3 env (initState ["pdfs", name])).pdf_path fs false
                  row.generated_receipt_id).2 := by
              show (call_finalize env (stateAfter3 env (initState ["pdfs", name])) db fs).fs = _
              rw [hcf]
            rw [then_pr hstat, hdb, hfs2]
            have hname2 : row.original_pdf_filename = name := hname
            refine ⟨?_, Or.inr (Or.inl ⟨row, rfl, rfl, hname2, Or.inl ?_⟩)⟩
            · exact manage_src_not_mem env _ fs false row.generated_receipt_id hmv
                (by simp : (["pdfs", name] : List String) ≠
                  ["error_pdfs", row.generated_receipt_id ++ ".pdf"])
            · exact manage_dst_mem env _ fs false row.generated_receipt_id hmv

/-- C1 (amended) witness: a concrete fully-successful run, with the
hypotheses discharged. -/
theorem c1_amended_witness :
    envAccept.manageMoveExn = none ∧ (["pdfs", "a.pdf"] ∈ fs0.files) ∧
    ["pdfs", "a.pdf"] ∉ (process_pdf envAccept ["pdfs", "a.pdf"] DB.empty fs0).fs.files := by
  refine ⟨rfl, by decide, ?_⟩
  exact (c1_amended_outcomes envAccept DB.empty fs0 "a.pdf" rfl (by decide)).1

/-! ## C7 (amended): ordering facts about the id scan -/

theorem charsLt_self (cs : List Char) : charsLt cs cs = false := by
  induction cs with
  | nil => rfl
  | cons c cs ih =>
    simp only [charsLt]
    rw [if_neg (Nat.lt_irrefl _), if_neg (Nat.lt_irrefl _)]
    exact ih

theorem charsLt_append (c a b : List Char) : charsLt (c ++ a) (c ++ b) = charsLt a b := by
  induction c with
  | nil => rfl
  | cons x xs ih =>
    show charsLt (x :: (xs ++ a)) (x :: (xs ++ b)) = charsLt a b
    simp only [charsLt]
    rw [if_neg (Nat.lt_irrefl _), if_neg (Nat.lt_irrefl _)]
    exact ih

theorem charsLt_trans {a b c : List Char} (h1 : charsLt a b = true) (h2 : charsLt b c = true) :
    charsLt a c = true := by
  induction a generalizing b c with
  | nil =>
    cases b with
    | nil => simp [charsLt] at h1
    | cons y ys =>
      cases c with
      | nil => simp [charsLt] at h2
      | cons z zs => rfl
  | cons x xs ih =>
    cases b with
    | nil => simp [charsLt] at h1
    | cons y ys =>
      cases c with
      | nil => simp [charsLt] at h2
      | cons z zs =>
        simp only [charsLt] at h1 h2 ⊢
        by_cases hxy : x.toNat < y.toNat
        · by_cases hyz : y.toNat < z.toNat
          · rw [if_pos (Nat.lt_trans hxy hyz)]
          · rw [if_neg hyz] at h2
            by_cases hzy : z.toNat < y.toNat
            · rw [if_pos hzy] at h2
              exact absurd h2 (by simp)
            · rw [if_pos (show x.toNat < z.toNat by omega)]
        · rw [if_neg hxy] at h1
          by_cases hyx : y.toNat < x.toNat
          · rw [if_pos hyx] at h1
            exact absurd h1 (by simp)
          · rw [if_neg hyx] at h1
            by_cases hyz : y.toNat < z.toNat
            · rw [if_pos (show x.toNat < z.toNat by omega)]
            · rw [if_neg hyz] at h2
              by_cases hzy : z.toNat < y.toNat
              · rw [if_pos hzy] at h2
                exact absurd h2 (by simp)
              · rw [if_neg hzy] at h2
                rw [if_neg (show ¬ x.toNat < z.toNat by omega),
                  if_neg (show ¬ z.toNat < x.toNat by omega)]
                exact ih h1 h2

set_option maxRecDepth 100000 in
theorem pad3_data : ∀ n, n < 1000 → (pad3 n).data =
    [Nat.digitChar (n / 100), Nat.digitChar (n / 10 % 10), Nat.digitChar (n % 10)] := by
  decide

set_option maxRecDepth 100000 in
theorem digitChar_toNat_lt : ∀ a, a < 10 → ∀ b, b < 10 → a < b →
    (Nat.digitChar a).toNat < (Nat.digitChar b).toNat := by
  decide

set_option maxRecDepth 100000 in
theorem pad3_parse : ∀ n, n < 1000 → pyIntOfDigits (pad3 n) = some n := by
  decide

set_option maxRecDepth 100000 in
theorem pad3_no_us : ∀ n, n < 1000 → ∀ c ∈ (pad3 n).data, ¬ c = '_' := by
  decide

theorem pad3_charsLt (a b : Nat) (ha : a < 1000) (hb : b < 1000) (h : a < b) :
    charsLt (pad3 a).data (pad3 b).data = true := by
  rw [pad3_data a ha, pad3_data b hb]
  simp only [charsLt]
  rcases Nat.lt_trichotomy (a / 100) (b / 100) with h1 | h1 | h1
  · rw [if_pos (digitChar_toNat_lt _ (by omega) _ (by omega) h1)]
  · rw [h1, if_neg (Nat.lt_irrefl _), if_neg (Nat.lt_irrefl _)]
    rcases Nat.lt_trichotomy (a / 10 % 10) (b / 10 % 10) with h2 | h2 | h2
    · rw [if_pos (digitChar_toNat_lt _ (by omega) _ (by omega) h2)]
    · rw [h2, if_neg (Nat.lt_irrefl _), if_neg (Nat.lt_irrefl _)]
      rw [if_pos (digitChar_toNat_lt _ (by omega) _ (by omega)
        (show a % 10 < b % 10 by omega))]
    · exact absurd h (by omega)
  · exact absurd h (by omega)

theorem full_strLtSq (pfx : String) (a b : Nat) (ha : a < 1000) (hb : b < 1000) (h : a < b) :
    strLtSq (pfx ++ "_" ++ pad3 a) (pfx ++ "_" ++ pad3 b) = true := by
  unfold strLtSq
  rw [String.data_append, String.data_append, String.data_append, String.data_append,
    charsLt_append]
  exact pad3_charsLt a b ha hb h

theorem takeWhile_all_append (p : Char → Bool) (l1 : List Char) (x : Char) (l2 : List Char)
    (h1 : ∀ c ∈ l1, p c = true) (hx : p x = false) :
    (l1 ++ x :: l2).takeWhile p = l1 := by
  induction l1 with
  | nil => simp [List.takeWhile_cons, hx]
  | cons c cs ih =>
    have hc : p c = true := h1 c (by simp)
    simp only [List.cons_append, List.takeWhile_cons, hc, if_true]
    rw [ih (fun d hd => h1 d (by simp [hd]))]

theorem afterLast_full (pfx t : String) (ht : ∀ c ∈ t.data, ¬ c = '_') :
    afterLastUnderscore (pfx ++ "_" ++ t) = t := by
  unfold afterLastUnderscore
  rw [String.data_append, String.data_append,
    show ("_" : String).data = ['_'] from rfl, List.reverse_append, List.reverse_append]
  simp only [List.reverse_cons, List.reverse_nil, List.nil_append, List.singleton_append,
    List.append_assoc]
  rw [takeWhile_all_append _ t.data.reverse '_' pfx.data.reverse
    (fun c hc => by
      have : c ∈ t.data := List.mem_reverse.mp hc
      simp [ht c this])
    (by decide)]
  rw [List.reverse_reverse]

theorem sqliteMaxText_spec : ∀ (l : List String) (s : String),
    ∃ m, sqliteMaxText (s :: l) = some m ∧ m ∈ s :: l ∧
      ∀ x ∈ s :: l, strLtSq m x = false := by
  intro l
  induction l with
  | nil =>
    intro s
    refine ⟨s, rfl, by simp, ?_⟩
    intro x hx
    rw [List.mem_singleton.mp hx]
    show charsLt s.data s.data = false
    exact charsLt_self s.data
  | cons t rest ih =>
    intro s
    rcases ih t with ⟨m, hm, hmem, hmax⟩
    have hstep : sqliteMaxText (s :: t :: rest) =
        (match sqliteMaxText (t :: rest) with
         | none => some s
         | some u => if strLtSq u s then some s else some u) := rfl
    by_cases hlt : strLtSq m s = true
    · refine ⟨s, ?_, by simp, ?_⟩
      · rw [hstep, hm]
        simp only [hlt, if_true]
      · intro x hx
        rcases List.mem_cons.mp hx with rfl | hx2
        · show charsLt x.data x.data = false
          exact charsLt_self x.data
        · cases hb : strLtSq s x with
          | false => rfl
          | true =>
            have htr : strLtSq m x = true := charsLt_trans hlt hb
            rw [hmax x hx2] at htr
            exact absurd htr (by simp)
    · have hlt' : strLtSq m s = false := by
        cases hq : strLtSq m s
        · rfl
        · exact absurd hq hlt
      refine ⟨m, ?_, List.mem_cons_of_mem s hmem, ?_⟩
      · rw [hstep, hm]
        simp only [hlt', Bool.false_eq_true, if_false]
      · intro x hx
        rcases List.mem_cons.mp hx with rfl | hx2
        · exact hlt'
        · exact hmax x hx2

theorem like_full (pfx : String) (n : Nat) (hn : n < 1000) :
    likeDateUnderscorePct pfx (pfx ++ "_" ++ pad3 n) = true := by
  unfold likeDateUnderscorePct
  rw [Bool.and_eq_true]
  constructor
  · rw [List.isPrefixOf_iff_prefix, String.data_append, String.data_append, List.append_assoc]
    exact List.prefix_append _ _
  · rw [decide_eq_true_eq]
    have hlen : (pfx ++ "_" ++ pad3 n).length = pfx.length + 1 + 3 := by
      show (pfx ++ "_" ++ pad3 n).data.length = _
      rw [String.data_append, String.data_append, List.length_append, List.length_append,
        pad3_data n hn]
      rfl
    omega

/-- C7 (amended): `_next_receipt_id` takes the lexicographically
greatest id matching the date's LIKE pattern and increments the digits
after its last underscore.  When the matching ids are exactly
`pfx_pad3(n)` for counters `n ∈ ns ⊆ [1, 999]`, the lexicographic scan
agrees with the numeric maximum `N`: the fresh id is `pfx_pad3(N+1)`,
numerically above every existing counter (and lexicographically above
every existing matching id while `N+1 ≤ 999`); a prefix with no matching
ids starts at `pfx_001`.  (Beyond 999 the scheme breaks — see the
counterexample.) -/
theorem c7_amended_next_id (ids : List String) (pfx : String) (ns : List Nat)
    (hsound : ∀ s ∈ ids, likeDateUnderscorePct pfx s = true →
      ∃ n ∈ ns, s = pfx ++ "_" ++ pad3 n)
    (hcomplete : ∀ n ∈ ns, (pfx ++ "_" ++ pad3 n) ∈ ids)
    (hrange : ∀ n ∈ ns, 1 ≤ n ∧ n ≤ 999) :
    (ns = [] → nextReceiptId ids pfx = pfx ++ "_" ++ pad3 1) ∧
    (∀ N ∈ ns, (∀ m ∈ ns, m ≤ N) →
      nextReceiptId ids pfx = pfx ++ "_" ++ pad3 (N + 1) ∧
      (∀ m ∈ ns, m < N + 1) ∧
      (N + 1 ≤ 999 → ∀ m ∈ ns,
        strLtSq (pfx ++ "_" ++ pad3 m) (pfx ++ "_" ++ pad3 (N + 1)) = true)) := by
  constructor
  · intro hns
    have hfil : ids.filter (likeDateUnderscorePct pfx) = [] := by
      rw [List.filter_eq_nil_iff]
      intro s hs hp
      rcases hsound s hs hp with ⟨n, hn, _⟩
      rw [hns] at hn
      exact absurd hn (List.not_mem_nil n)
    unfold nextReceiptId
    rw [hfil]
    rfl
  · intro N hN hmaxN
    have hN999 : N ≤ 999 := (hrange N hN).2
    have hmemN : (pfx ++ "_" ++ pad3 N) ∈ ids.filter (likeDateUnderscorePct pfx) :=
      List.mem_filter.mpr ⟨hcomplete N hN, like_full pfx N (by omega)⟩
    rcases hq : ids.filter (likeDateUnderscorePct pfx) with _ | ⟨s0, rest⟩
    · rw [hq] at hmemN
      exact absurd hmemN (List.not_mem_nil _)
    rcases sqliteMaxText_spec rest s0 with ⟨M, hM, hMmem, hMmax⟩
    have hMmem' : M ∈ ids.filter (likeDateUnderscorePct pfx) := by
      rw [hq]
      exact hMmem
    rcases List.mem_filter.mp hMmem' with ⟨hMids, hMlike⟩
    rcases hsound M hMids hMlike with ⟨k, hkns, hkfull⟩
    have hk999 : k ≤ 999 := (hrange k hkns).2
    have hkN : k = N := by
      have hle1 : k ≤ N := hmaxN k hkns
      have hle2 : N ≤ k := by
        by_contra hc
        have hNk : k < N := by omega
        have := full_strLtSq pfx k N (by omega) (by omega) hNk
        have hfalse : strLtSq M (pfx ++ "_" ++ pad3 N) = false := by
          apply hMmax
          rw [← hq]
          exact hmemN
        rw [hkfull] at hfalse
        rw [hfalse] at this
        exact absurd this (by simp)
      omega
    have hmax_eq : sqliteMaxText (ids.filter (likeDateUnderscorePct pfx)) =
        some (pfx ++ "_" ++ pad3 N) := by
      rw [hq, hM, hkfull, hkN]
    have hparse : pyIntOfDigits (afterLastUnderscore (pfx ++ "_" ++ pad3 N)) = some N := by
      rw [afterLast_full pfx (pad3 N) (pad3_no_us N (by omega))]
      exact pad3_parse N (by omega)
    refine ⟨?_, ?_, ?_⟩
    · simp only [nextReceiptId, hmax_eq, hparse]
    · intro m hm
      have := hmaxN m hm
      omega
    · intro hN1 m hm
      have hm999 : m ≤ 999 := (hrange m hm).2
      exact full_strLtSq pfx m (N + 1) (by omega) (by omega) (by
        have := hmaxN m hm
        omega)

/-- C7 (amended) witness: a table holding `241103_001` and `241103_002`
(plus an id of another date) yields `241103_003` next, above both. -/
theorem c7_amended_witness :
    nextReceiptId ["241102_001", "241103_001", "241103_002"] "241103" =
      "241103" ++ "_" ++ pad3 3 ∧
    (∀ m ∈ [1, 2], m < 3) := by
  have H := (c7_amended_next_id ["241102_001", "241103_001", "241103_002"] "241103" [1, 2]
    (by decide) (by decide) (by decide)).2 2 (by decide) (by decide)
  exact ⟨H.1, H.2.1⟩

end ReceiptAgent
